import Mathlib

/-!
ShairportQt: the class `WindowsMediaTransportControls`.

A shallow embedding of `src/lib/WindowsMediaTransportControls.cpp` and
`src/inc/WindowsMediaTransportControls.h`.

The class wraps the platform media session.  Every member function body is a
`try` block whose handler catches `const std::exception&` (only `IsAvailable`
catches `...`), and every member function is declared `noexcept`.  The
embedding therefore keeps three ways for a computation to end:

* it returns a value,
* it raises an exception (derived from `std::exception`, or not),
* the process is terminated (`std::terminate`, which is what C++ does when an
  exception leaves a `noexcept` function).

The platform is an external collaborator.  Each member function receives, as an
explicit argument, the outcome of every platform call it can make (a record with
one field per call site), so that a theorem quantifying over that record
quantifies over every behaviour of the platform.  A platform call that raises
has no effect on the session; a setter that succeeds stores its argument; the
display updater's `Update()` copies the staged display fields to the published
ones.  Log lines (`spdlog`) are not part of the model; the mutex `m_mutex` appears
in the section on threads, where the member functions are taken step by step.
-/

namespace ShairportQt

/-! ## Data model -/

/-- The enum class `PlaybackState` of the header.  An `enum class` without an
explicit underlying type has underlying type `int`, and every value of that
type is a valid value of the enumeration, so the embedding keeps the integer. -/
structure PlaybackState where
  val : Int
deriving DecidableEq

namespace PlaybackState

/-- Enumerator `Closed` (first enumerator, value 0). -/
def Closed : PlaybackState := ⟨0⟩
/-- Enumerator `Opening` (value 1). -/
def Opening : PlaybackState := ⟨1⟩
/-- Enumerator `Playing` (value 2). -/
def Playing : PlaybackState := ⟨2⟩
/-- Enumerator `Paused` (value 3). -/
def Paused : PlaybackState := ⟨3⟩
/-- Enumerator `Stopped` (value 4). -/
def Stopped : PlaybackState := ⟨4⟩

end PlaybackState

/-- Modelled from the spec: the platform type `MediaPlaybackState` is declared in
the WinRT headers, which are not part of the repository.  The source uses the
five enumerators `Closed`, `Opening`, `Playing`, `Paused`, `Stopped`
("the platform's state vocabulary (Closed→Closed, Opening→Opening,
Playing→Playing, Paused→Paused, Stopped→Stopped)"). -/
inductive MediaPlaybackState where
  | Closed
  | Opening
  | Playing
  | Paused
  | Stopped
deriving DecidableEq

/-- The struct `MediaMetadata` of the header.  `durationSeconds` and
`positionSeconds` are C++ `int`; theorems that depend on the 32-bit range state
it as a hypothesis (`IsInt32`). -/
structure MediaMetadata where
  title : String := ""
  artist : String := ""
  album : String := ""
  albumArtData : String := ""
  albumArtType : String := ""
  durationSeconds : Int := 0
  positionSeconds : Int := 0
deriving DecidableEq

/-- The range of a C++ `int` (32 bits, two's complement). -/
def IsInt32 (x : Int) : Prop := -2147483648 ≤ x ∧ x ≤ 2147483647

instance (x : Int) : Decidable (IsInt32 x) := by
  unfold IsInt32; infer_instance

/-- The value a signed 64-bit multiplication leaves in an `int64_t`: the exact
integer reduced modulo 2^64 into the signed range. -/
def wrapInt64 (x : Int) : Int :=
  (x + 9223372036854775808) % 18446744073709551616 - 9223372036854775808

/-- The handle `m_smtc` holds when it is not null. -/
structure Handle where
  id : Nat
deriving DecidableEq

/-- The thumbnail reference handed to the display updater: a stream reference
over the bytes that were written to the in-memory stream. -/
structure Thumbnail where
  bytes : List Nat
deriving DecidableEq

/-- The display fields reachable through `DisplayUpdater()`: the music
properties, the timeline properties and the thumbnail. -/
structure Display where
  isMusic : Bool := false
  title : String := ""
  artist : String := ""
  album : String := ""
  maxSeekTime : Option Int := none
  position : Option Int := none
  thumbnail : Option Thumbnail := none
deriving DecidableEq

/-- The platform media session behind the handle.  `staged` holds what the
setters of the display updater have stored, `published` what the last
successful `Update()` committed. -/
structure Session where
  isEnabled : Bool := false
  isPlayEnabled : Bool := false
  isPauseEnabled : Bool := false
  isStopEnabled : Bool := false
  isNextEnabled : Bool := false
  isPreviousEnabled : Bool := false
  playbackStatus : MediaPlaybackState := MediaPlaybackState.Closed
  staged : Display := {}
  published : Display := {}
deriving DecidableEq

/-- A call made on the platform, with its arguments. -/
inductive PlatformCall where
  | getForCurrentView
  | displayUpdater
  | setType
  | setIsEnabled (b : Bool)
  | setIsPlayEnabled (b : Bool)
  | setIsPauseEnabled (b : Bool)
  | setIsStopEnabled (b : Bool)
  | setIsNextEnabled (b : Bool)
  | setIsPreviousEnabled (b : Bool)
  | setPlaybackStatus (s : MediaPlaybackState)
  | musicProperties
  | setTitle (s : String)
  | setArtist (s : String)
  | setAlbumTitle (s : String)
  | timelineProperties
  | setMaxSeekTime (count : Int)
  | setPosition (count : Int)
  | setThumbnail (t : Option Thumbnail)
  | update
  | newStream
  | newWriter
  | writeBytes (bytes : List Nat)
  | storeAsync
  | getStored
  | seek (pos : Nat)
  | createFromStream
deriving DecidableEq

/-- Calls that write a published-state field or commit: the playback status, the
music properties, the timeline, the thumbnail and `Update()`. -/
def PlatformCall.isPublish : PlatformCall → Bool
  | .setPlaybackStatus _ => true
  | .setTitle _ => true
  | .setArtist _ => true
  | .setAlbumTitle _ => true
  | .setMaxSeekTime _ => true
  | .setPosition _ => true
  | .setThumbnail _ => true
  | .update => true
  | _ => false

/-- The data members of the class (`m_smtc`, `m_initialized`) together with the
platform session and the list of platform calls made so far. -/
structure World where
  m_smtc : Option Handle := none
  m_initialized : Bool := false
  session : Session := {}
  calls : List PlatformCall := []
deriving DecidableEq

/-- The calls made between an earlier world and a later one. -/
def callsSince (before after : World) : List PlatformCall :=
  after.calls.drop before.calls.length

/-! ## Control flow: exceptions and `noexcept` -/

/-- The two kinds of exception a platform call can raise: one derived from
`std::exception`, or one that is not (C++/WinRT reports a failed call with
`winrt::hresult_error`, which does not derive from `std::exception`). -/
inductive Raised where
  | stdException
  | otherException
deriving DecidableEq

/-- How a computation ends. -/
inductive Step (α : Type) where
  | returned (a : α) (w : World)
  | raised (e : Raised) (w : World)
  | terminated
deriving DecidableEq

/-- A computation over the world. -/
def Exec (α : Type) : Type := World → Step α

/-- Sequencing: an exception or a termination skips the rest; the world keeps
every change made before the exception was raised. -/
def Exec.bind {α β : Type} (m : Exec α) (f : α → Exec β) : Exec β := fun w =>
  match m w with
  | .returned a w1 => f a w1
  | .raised e w1 => .raised e w1
  | .terminated => .terminated

instance : Monad Exec where
  pure a := fun w => .returned a w
  bind := Exec.bind

/-- Read the world. -/
def getWorld : Exec World := fun w => .returned w w

/-- Assignment to `m_smtc`. -/
def setSmtc (h : Option Handle) : Exec Unit := fun w =>
  .returned () { w with m_smtc := h }

/-- Assignment to `m_initialized`. -/
def setInitialized (b : Bool) : Exec Unit := fun w =>
  .returned () { w with m_initialized := b }

/-- The outcome of a platform call that returns nothing. -/
inductive CallResult where
  | ok
  | throwsStd
  | throwsOther
deriving DecidableEq

/-- The outcome of a platform call that returns an object: the object, a null
reference, or an exception. -/
inductive Fetched (α : Type) where
  | object (a : α)
  | null
  | throwsStd
  | throwsOther
deriving DecidableEq

/-- A platform call returning nothing: the call is recorded; when it succeeds
its effect is applied to the session, when it raises the session is as before. -/
def call (c : PlatformCall) (r : CallResult) (effect : Session → Session) : Exec Unit :=
  fun w =>
    match r with
    | .ok => .returned () { w with calls := w.calls ++ [c], session := effect w.session }
    | .throwsStd => .raised .stdException { w with calls := w.calls ++ [c] }
    | .throwsOther => .raised .otherException { w with calls := w.calls ++ [c] }

/-- A platform call returning an object (or null). -/
def fetch {α : Type} (c : PlatformCall) (r : Fetched α) : Exec (Option α) :=
  fun w =>
    match r with
    | .object a => .returned (some a) { w with calls := w.calls ++ [c] }
    | .null => .returned none { w with calls := w.calls ++ [c] }
    | .throwsStd => .raised .stdException { w with calls := w.calls ++ [c] }
    | .throwsOther => .raised .otherException { w with calls := w.calls ++ [c] }

/-- A `noexcept` function whose body is `try { body } catch (const
std::exception&) { handler }`: an exception derived from `std::exception` runs
the handler; any other exception leaves the `try` block uncaught, meets the
`noexcept` boundary and terminates the process. -/
def noexceptTry {α : Type} (body : Exec α) (handler : Exec α) : Exec α := fun w =>
  match body w with
  | .returned a w1 => .returned a w1
  | .raised .stdException w1 =>
    match handler w1 with
    | .returned a w2 => .returned a w2
    | _ => .terminated
  | .raised .otherException _ => .terminated
  | .terminated => .terminated

/-- A `noexcept` function whose body is `try { body } catch (...) { handler }`:
every exception runs the handler. -/
def noexceptTryAll {α : Type} (body : Exec α) (handler : Exec α) : Exec α := fun w =>
  match body w with
  | .returned a w1 => .returned a w1
  | .raised _ w1 =>
    match handler w1 with
    | .returned a w2 => .returned a w2
    | _ => .terminated
  | .terminated => .terminated

/-! ## The member functions -/

/-- The platform outcomes of the calls `Initialize` can make, in source order. -/
structure InitializePlatform where
  getForCurrentView : Fetched Handle
  displayUpdater : Fetched Unit := .object ()
  setType : CallResult := .ok
  isEnabled : CallResult := .ok
  isPlayEnabled : CallResult := .ok
  isPauseEnabled : CallResult := .ok
  isStopEnabled : CallResult := .ok
  isNextEnabled : CallResult := .ok
  isPreviousEnabled : CallResult := .ok
deriving DecidableEq

/-- The `try` block of `Initialize` (source lines 48-86). -/
def InitializeBody (p : InitializePlatform) : Exec Bool := do
  let w ← getWorld
  if w.m_initialized then
    return true
  let smtc ← fetch .getForCurrentView p.getForCurrentView
  setSmtc smtc
  if smtc.isNone then
    return false
  let displayUpdater ← fetch .displayUpdater p.displayUpdater
  if displayUpdater.isNone then
    setSmtc none
    return false
  call .setType p.setType (fun s => { s with staged := { s.staged with isMusic := true } })
  call (.setIsEnabled true) p.isEnabled (fun s => { s with isEnabled := true })
  call (.setIsPlayEnabled true) p.isPlayEnabled (fun s => { s with isPlayEnabled := true })
  call (.setIsPauseEnabled true) p.isPauseEnabled (fun s => { s with isPauseEnabled := true })
  call (.setIsStopEnabled true) p.isStopEnabled (fun s => { s with isStopEnabled := true })
  call (.setIsNextEnabled false) p.isNextEnabled (fun s => { s with isNextEnabled := false })
  call (.setIsPreviousEnabled false) p.isPreviousEnabled
    (fun s => { s with isPreviousEnabled := false })
  setInitialized true
  return true

/-- The `catch (const std::exception&)` handler of `Initialize` (lines 88-93). -/
def InitializeHandler : Exec Bool := do
  setInitialized false
  return false

/-- `bool WindowsMediaTransportControls::Initialize() noexcept`. -/
def Initialize (p : InitializePlatform) : Exec Bool :=
  noexceptTry (InitializeBody p) InitializeHandler

/-- The `try` block of `Shutdown` (lines 100-109); the argument is the outcome
of `m_smtc.IsEnabled(false)`. -/
def ShutdownBody (isEnabled : CallResult) : Exec Unit := do
  let w ← getWorld
  if w.m_smtc.isSome then
    call (.setIsEnabled false) isEnabled (fun s => { s with isEnabled := false })
    setSmtc none
  setInitialized false

/-- `void WindowsMediaTransportControls::Shutdown() noexcept`; the handler only
logs. -/
def Shutdown (isEnabled : CallResult) : Exec Unit :=
  noexceptTry (ShutdownBody isEnabled) (pure ())

/-- `MediaPlaybackState WindowsMediaTransportControls::ToWinRTState(PlaybackState)`:
the `switch` with its `default` label. -/
def ToWinRTState (state : PlaybackState) : MediaPlaybackState :=
  if state = PlaybackState.Playing then MediaPlaybackState.Playing
  else if state = PlaybackState.Paused then MediaPlaybackState.Paused
  else if state = PlaybackState.Stopped then MediaPlaybackState.Stopped
  else if state = PlaybackState.Opening then MediaPlaybackState.Opening
  else if state = PlaybackState.Closed then MediaPlaybackState.Closed
  else MediaPlaybackState.Closed

/-- The `try` block of `SetPlaybackState` (lines 121-128); the second argument is
the outcome of `m_smtc.PlaybackStatus(...)`. -/
def SetPlaybackStateBody (state : PlaybackState) (playbackStatus : CallResult) : Exec Unit := do
  let w ← getWorld
  if !w.m_initialized || !w.m_smtc.isSome then
    return
  call (.setPlaybackStatus (ToWinRTState state)) playbackStatus
    (fun s => { s with playbackStatus := ToWinRTState state })

/-- `void WindowsMediaTransportControls::SetPlaybackState(PlaybackState) noexcept`. -/
def SetPlaybackState (state : PlaybackState) (playbackStatus : CallResult) : Exec Unit :=
  noexceptTry (SetPlaybackStateBody state playbackStatus) (pure ())

/-- The platform outcomes of the calls `UpdateMetadata` can make, in source
order. -/
structure UpdateMetadataPlatform where
  displayUpdater : Fetched Unit := .object ()
  musicProperties : Fetched Unit := .object ()
  title : CallResult := .ok
  artist : CallResult := .ok
  albumTitle : CallResult := .ok
  timelineProperties : Fetched Unit := .object ()
  maxSeekTime : CallResult := .ok
  position : CallResult := .ok
  update : CallResult := .ok
deriving DecidableEq

/-- The text passed to `musicProperties.Title`: `metadata.title.empty() ?
"Unknown" : metadata.title` (`winrt::to_hstring` re-encodes the same text). -/
def titleText (metadata : MediaMetadata) : String :=
  if metadata.title = "" then "Unknown" else metadata.title

/-- The text passed to `musicProperties.Artist`. -/
def artistText (metadata : MediaMetadata) : String :=
  if metadata.artist = "" then "Unknown Artist" else metadata.artist

/-- The text passed to `musicProperties.AlbumTitle`. -/
def albumText (metadata : MediaMetadata) : String :=
  if metadata.album = "" then "Unknown Album" else metadata.album

/-- The value of `duration.count`:
`static_cast<int64_t>(metadata.durationSeconds) * 10000000LL`. -/
def durationCount (metadata : MediaMetadata) : Int :=
  wrapInt64 (metadata.durationSeconds * 10000000)

/-- The value of `position.count`:
`static_cast<int64_t>(metadata.positionSeconds) * 10000000LL`. -/
def positionCount (metadata : MediaMetadata) : Int :=
  wrapInt64 (metadata.positionSeconds * 10000000)

/-- The effect of `displayUpdater.Update()`: the staged display fields become
the published ones. -/
def commit (s : Session) : Session := { s with published := s.staged }

/-- The `try` block of `UpdateMetadata` (lines 140-181). -/
def UpdateMetadataBody (metadata : MediaMetadata) (p : UpdateMetadataPlatform) : Exec Unit := do
  let w ← getWorld
  if !w.m_initialized || !w.m_smtc.isSome then
    return
  let displayUpdater ← fetch .displayUpdater p.displayUpdater
  if displayUpdater.isNone then
    return
  let musicProperties ← fetch .musicProperties p.musicProperties
  if musicProperties.isNone then
    return
  call (.setTitle (titleText metadata)) p.title
    (fun s => { s with staged := { s.staged with title := titleText metadata } })
  call (.setArtist (artistText metadata)) p.artist
    (fun s => { s with staged := { s.staged with artist := artistText metadata } })
  call (.setAlbumTitle (albumText metadata)) p.albumTitle
    (fun s => { s with staged := { s.staged with album := albumText metadata } })
  let timelineProperties ← fetch .timelineProperties p.timelineProperties
  if timelineProperties.isSome && decide (metadata.durationSeconds > 0) then
    call (.setMaxSeekTime (durationCount metadata)) p.maxSeekTime
      (fun s => { s with staged := { s.staged with maxSeekTime := some (durationCount metadata) } })
    call (.setPosition (positionCount metadata)) p.position
      (fun s => { s with staged := { s.staged with position := some (positionCount metadata) } })
  call .update p.update commit

/-- `void WindowsMediaTransportControls::UpdateMetadata(const MediaMetadata&)
noexcept`; the handler only logs. -/
def UpdateMetadata (metadata : MediaMetadata) (p : UpdateMetadataPlatform) : Exec Unit :=
  noexceptTry (UpdateMetadataBody metadata p) (pure ())

/-- The platform outcomes of the calls `CreateThumbnail` can make, in source
order. -/
structure CreateThumbnailPlatform where
  newStream : CallResult := .ok
  newWriter : CallResult := .ok
  writeBytes : CallResult := .ok
  storeAsync : CallResult := .ok
  getStored : CallResult := .ok
  seek : CallResult := .ok
  createFromStream : Fetched Unit := .object ()
deriving DecidableEq

/-- The `try` block of `CreateThumbnail` (lines 285-309).  `imageData` is the
pointer: `none` for a null pointer, otherwise the bytes it points to; the array
view covers the first `imageDataSize` of them.  `mimeType` is not used by the
source. -/
def CreateThumbnailBody (imageData : Option (List Nat)) (imageDataSize : Nat)
    (_mimeType : String) (p : CreateThumbnailPlatform) : Exec (Option Thumbnail) := do
  if imageData.isNone || imageDataSize == 0 then
    return none
  call .newStream p.newStream id
  call .newWriter p.newWriter id
  call (.writeBytes ((imageData.getD []).take imageDataSize)) p.writeBytes id
  call .storeAsync p.storeAsync id
  call .getStored p.getStored id
  call (.seek 0) p.seek id
  let reference ← fetch .createFromStream p.createFromStream
  return reference.map (fun _ => Thumbnail.mk ((imageData.getD []).take imageDataSize))

/-- `IRandomAccessStreamReference WindowsMediaTransportControls::CreateThumbnail(...)
noexcept`; the handler returns `nullptr`. -/
def CreateThumbnail (imageData : Option (List Nat)) (imageDataSize : Nat)
    (mimeType : String) (p : CreateThumbnailPlatform) : Exec (Option Thumbnail) :=
  noexceptTry (CreateThumbnailBody imageData imageDataSize mimeType p) (pure none)

/-- The platform outcomes of the calls `SetAlbumArt` can make, in source order. -/
structure SetAlbumArtPlatform where
  displayUpdater : Fetched Unit := .object ()
  createThumbnail : CreateThumbnailPlatform := {}
  thumbnail : CallResult := .ok
  update : CallResult := .ok
deriving DecidableEq

/-- The `try` block of `SetAlbumArt` (lines 196-221). -/
def SetAlbumArtBody (imageData : Option (List Nat)) (imageDataSize : Nat)
    (mimeType : String) (p : SetAlbumArtPlatform) : Exec Unit := do
  let w ← getWorld
  if !w.m_initialized || !w.m_smtc.isSome || imageData.isNone || imageDataSize == 0 then
    return
  let displayUpdater ← fetch .displayUpdater p.displayUpdater
  if displayUpdater.isNone then
    return
  let thumbnail ← CreateThumbnail imageData imageDataSize mimeType p.createThumbnail
  if thumbnail.isNone then
    return
  call (.setThumbnail thumbnail) p.thumbnail
    (fun s => { s with staged := { s.staged with thumbnail := thumbnail } })
  call .update p.update commit

/-- `void WindowsMediaTransportControls::SetAlbumArt(...) noexcept`; the handler
only logs. -/
def SetAlbumArt (imageData : Option (List Nat)) (imageDataSize : Nat)
    (mimeType : String) (p : SetAlbumArtPlatform) : Exec Unit :=
  noexceptTry (SetAlbumArtBody imageData imageDataSize mimeType p) (pure ())

/-- The platform outcomes of the calls `ClearAlbumArt` can make, in source
order. -/
structure ClearAlbumArtPlatform where
  displayUpdater : Fetched Unit := .object ()
  thumbnail : CallResult := .ok
  update : CallResult := .ok
deriving DecidableEq

/-- The `try` block of `ClearAlbumArt` (lines 233-249). -/
def ClearAlbumArtBody (p : ClearAlbumArtPlatform) : Exec Unit := do
  let w ← getWorld
  if !w.m_initialized || !w.m_smtc.isSome then
    return
  let displayUpdater ← fetch .displayUpdater p.displayUpdater
  if displayUpdater.isNone then
    return
  call (.setThumbnail none) p.thumbnail
    (fun s => { s with staged := { s.staged with thumbnail := none } })
  call .update p.update commit

/-- `void WindowsMediaTransportControls::ClearAlbumArt() noexcept`; the handler
only logs. -/
def ClearAlbumArt (p : ClearAlbumArtPlatform) : Exec Unit :=
  noexceptTry (ClearAlbumArtBody p) (pure ())

/-- `bool WindowsMediaTransportControls::IsInitialized() const noexcept`. -/
def IsInitialized : Exec Bool := fun w => .returned w.m_initialized w

/-- The `try` block of `IsAvailable` (lines 269-270): the local `smtc` is
compared with `nullptr` and released. -/
def IsAvailableBody (getForCurrentView : Fetched Handle) : Exec Bool := do
  let smtc ← fetch .getForCurrentView getForCurrentView
  return smtc.isSome

/-- `bool WindowsMediaTransportControls::IsAvailable() noexcept` (static); its
handler is `catch (...)` and returns `false`. -/
def IsAvailable (getForCurrentView : Fetched Handle) : Exec Bool :=
  noexceptTryAll (IsAvailableBody getForCurrentView) (pure false)

/-- The constructor (lines 16-30): it probes `IsAvailable()` and logs. -/
def Constructor (getForCurrentView : Fetched Handle) : Exec Unit := do
  let _available ← IsAvailable getForCurrentView
  return

/-- The object right after construction, on a platform whose session is `s`:
the default member initialisers (`m_smtc = nullptr`, `m_initialized = false`)
followed by the constructor body. -/
def freshInstance (s : Session) (getForCurrentView : Fetched Handle) : World :=
  match Constructor getForCurrentView { session := s } with
  | .returned _ w => w
  | .raised _ w => w
  | .terminated => { session := s }

/-- The class invariant of the specification: the handle is non-null if and only
if the flag is set. -/
def HandleMatchesFlag (w : World) : Prop :=
  w.m_smtc.isSome = true ↔ w.m_initialized = true

instance (w : World) : Decidable (HandleMatchesFlag w) := by
  unfold HandleMatchesFlag; infer_instance

/-! ## Sequences of lifecycle calls -/

/-- A call of `Initialize` or of `Shutdown`, with the platform outcomes it
meets. -/
inductive LifecycleCall where
  | callInitialize (p : InitializePlatform)
  | callShutdown (isEnabled : CallResult)
deriving DecidableEq

/-- What the caller observes of a lifecycle call: the value `Initialize`
returned, or that `Shutdown` returned. -/
inductive LifecycleEvent where
  | initializeReturned (b : Bool)
  | shutdownReturned
deriving DecidableEq

/-- Run a sequence of lifecycle calls; `none` when a call terminates the
process. -/
def runLifecycle : World → List LifecycleCall → Option (World × List LifecycleEvent)
  | w, [] => some (w, [])
  | w, .callInitialize p :: rest =>
    match Initialize p w with
    | .returned b w1 =>
      (runLifecycle w1 rest).map (fun r => (r.1, LifecycleEvent.initializeReturned b :: r.2))
    | _ => none
  | w, .callShutdown isEnabled :: rest =>
    match Shutdown isEnabled w with
    | .returned _ w1 =>
      (runLifecycle w1 rest).map (fun r => (r.1, LifecycleEvent.shutdownReturned :: r.2))
    | _ => none

/-- The lifecycle property of the specification, read off the observed events:
some `Initialize` returned `true` and no `Shutdown` comes after it. -/
def InitializedByTrace (trace : List LifecycleEvent) : Prop :=
  ∃ before after, trace = before ++ LifecycleEvent.initializeReturned true :: after ∧
    ∀ e ∈ after, e ≠ LifecycleEvent.shutdownReturned


/-! ## Reasoning about computations -/

/-- The computation `m`, started in `w`, ends in a way the three conditions
allow: `Q` when it returns, `E` when it raises, `T` when it terminates the
process. -/
def Sat {α : Type} (m : Exec α) (w : World) (Q : α → World → Prop)
    (E : Raised → World → Prop) (T : Prop) : Prop :=
  match m w with
  | .returned a w1 => Q a w1
  | .raised e w1 => E e w1
  | .terminated => T

/-! ## Auxiliary notions used in the statements -/

/-- The flag a sequence of observed lifecycle events leads to, starting from the
flag `b`: an `Initialize` that returned `true` sets it, a `Shutdown` that
returned clears it. -/
def traceFlag : Bool → List LifecycleEvent → Bool
  | b, [] => b
  | b, .initializeReturned r :: rest => traceFlag (b || r) rest
  | _, .shutdownReturned :: rest => traceFlag false rest

/-- Every platform call `UpdateMetadata` can make succeeds and yields an
object. -/
def UpdateMetadataPlatform.NoFailure (p : UpdateMetadataPlatform) : Prop :=
  p.displayUpdater = .object () ∧ p.musicProperties = .object () ∧ p.title = .ok ∧
  p.artist = .ok ∧ p.albumTitle = .ok ∧ p.timelineProperties = .object () ∧
  p.maxSeekTime = .ok ∧ p.position = .ok ∧ p.update = .ok

instance (p : UpdateMetadataPlatform) : Decidable p.NoFailure := by
  unfold UpdateMetadataPlatform.NoFailure; infer_instance

/-- Between `w` and `w1` nothing was published and the members did not change:
the flag, the handle, the published display fields and the playback status are
the same. -/
def NothingPublished (w w1 : World) : Prop :=
  w1.m_initialized = w.m_initialized ∧ w1.m_smtc = w.m_smtc ∧
  w1.session.published = w.session.published ∧
  w1.session.playbackStatus = w.session.playbackStatus

instance (w w1 : World) : Decidable (NothingPublished w w1) := by
  unfold NothingPublished; infer_instance

/-- An initialized instance: the flag is set and the handle is not null. -/
def Initialized (w : World) : Prop :=
  w.m_initialized = true ∧ w.m_smtc.isSome = true

instance (w : World) : Decidable (Initialized w) := by
  unfold Initialized; infer_instance

/-- A call of one of the four publishing member functions, with its arguments
and the platform outcomes it meets. -/
inductive PublishCall where
  | setPlaybackState (state : PlaybackState) (playbackStatus : CallResult)
  | updateMetadata (metadata : MediaMetadata) (p : UpdateMetadataPlatform)
  | setAlbumArt (imageData : Option (List Nat)) (imageDataSize : Nat) (mimeType : String)
      (p : SetAlbumArtPlatform)
  | clearAlbumArt (p : ClearAlbumArtPlatform)
deriving DecidableEq

/-- The `try` block of the member function called. -/
def PublishCall.body : PublishCall → Exec Unit
  | .setPlaybackState state r => SetPlaybackStateBody state r
  | .updateMetadata metadata p => UpdateMetadataBody metadata p
  | .setAlbumArt imageData imageDataSize mimeType p =>
    SetAlbumArtBody imageData imageDataSize mimeType p
  | .clearAlbumArt p => ClearAlbumArtBody p

/-- The member function called. -/
def PublishCall.run : PublishCall → Exec Unit
  | .setPlaybackState state r => SetPlaybackState state r
  | .updateMetadata metadata p => UpdateMetadata metadata p
  | .setAlbumArt imageData imageDataSize mimeType p =>
    SetAlbumArt imageData imageDataSize mimeType p
  | .clearAlbumArt p => ClearAlbumArt p

/-- The five enumerators of `PlaybackState`. -/
def PlaybackState.enumerators : List PlaybackState :=
  [PlaybackState.Closed, PlaybackState.Opening, PlaybackState.Playing, PlaybackState.Paused,
    PlaybackState.Stopped]

/-- A world in which the instance is initialized, on a platform session with
default fields. -/
def initializedExample : World := { m_smtc := some ⟨1⟩, m_initialized := true }

/-! ## Threads and the mutex

The member functions once more, this time as the sequence of atomic steps a
thread takes: the construction of `std::lock_guard<std::mutex> lock(m_mutex)`
(`lock`), its destruction when its scope is left, by `return`, by reaching the
end of the `try` block or by stack unwinding (`unlock`), each read and write of
the members `m_initialized` and `m_smtc`, and each platform call.  The
`lock_guard` is declared inside the `try` block, so it is destroyed before a
`catch` handler runs. -/

/-- The effect of a successful platform call on the session. -/
def PlatformCall.effect : PlatformCall → Session → Session
  | .setType, s => { s with staged := { s.staged with isMusic := true } }
  | .setIsEnabled b, s => { s with isEnabled := b }
  | .setIsPlayEnabled b, s => { s with isPlayEnabled := b }
  | .setIsPauseEnabled b, s => { s with isPauseEnabled := b }
  | .setIsStopEnabled b, s => { s with isStopEnabled := b }
  | .setIsNextEnabled b, s => { s with isNextEnabled := b }
  | .setIsPreviousEnabled b, s => { s with isPreviousEnabled := b }
  | .setPlaybackStatus v, s => { s with playbackStatus := v }
  | .setTitle t, s => { s with staged := { s.staged with title := t } }
  | .setArtist t, s => { s with staged := { s.staged with artist := t } }
  | .setAlbumTitle t, s => { s with staged := { s.staged with album := t } }
  | .setMaxSeekTime n, s => { s with staged := { s.staged with maxSeekTime := some n } }
  | .setPosition n, s => { s with staged := { s.staged with position := some n } }
  | .setThumbnail t, s => { s with staged := { s.staged with thumbnail := t } }
  | .update, s => commit s
  | _, s => s

/-- The code a thread still has to run.  `finished` carries the value returned
(`none` for a `void` function); a read of a member continues with one of two
branches, according to the value read. -/
inductive Code where
  | finished (result : Option Bool)
  | terminate
  | lock (next : Code)
  | unlock (next : Code)
  | readInitialized (whenSet whenClear : Code)
  | readSmtc (whenSet whenNull : Code)
  | writeInitialized (b : Bool) (next : Code)
  | writeSmtc (h : Option Handle) (next : Code)
  | platform (c : PlatformCall) (succeeds : Bool) (next : Code)
deriving DecidableEq

/-- A platform call returning nothing, made inside a `try` block in which the
`lock_guard` is alive: when it raises a `std::exception` the guard is destroyed
by stack unwinding and the handler runs; any other exception ends the process. -/
def callCode (c : PlatformCall) (r : CallResult) (handler next : Code) : Code :=
  match r with
  | .ok => .platform c true next
  | .throwsStd => .platform c false (.unlock handler)
  | .throwsOther => .platform c false .terminate

/-- A platform call returning an object (or null), made inside a `try` block in
which the `lock_guard` is alive. -/
def fetchCode {α : Type} (c : PlatformCall) (r : Fetched α) (handler : Code)
    (next : Option α → Code) : Code :=
  match r with
  | .object a => .platform c true (next (some a))
  | .null => .platform c true (next none)
  | .throwsStd => .platform c false (.unlock handler)
  | .throwsOther => .platform c false .terminate

/-- The steps of the handler of `Initialize` (lines 88-93): it runs after the
`try` block, and with it the scope of the `lock_guard`, has been left. -/
def InitializeHandlerCode : Code :=
  .writeInitialized false (.finished (some false))

/-- The steps of `Initialize` (lines 44-94). -/
def InitializeCode (p : InitializePlatform) : Code :=
  .lock (.readInitialized
    (.unlock (.finished (some true)))
    (fetchCode .getForCurrentView p.getForCurrentView InitializeHandlerCode fun smtc =>
      .writeSmtc smtc (.readSmtc
        (fetchCode .displayUpdater p.displayUpdater InitializeHandlerCode fun displayUpdater =>
          if displayUpdater.isNone then
            .writeSmtc none (.unlock (.finished (some false)))
          else
            callCode .setType p.setType InitializeHandlerCode <|
            callCode (.setIsEnabled true) p.isEnabled InitializeHandlerCode <|
            callCode (.setIsPlayEnabled true) p.isPlayEnabled InitializeHandlerCode <|
            callCode (.setIsPauseEnabled true) p.isPauseEnabled InitializeHandlerCode <|
            callCode (.setIsStopEnabled true) p.isStopEnabled InitializeHandlerCode <|
            callCode (.setIsNextEnabled false) p.isNextEnabled InitializeHandlerCode <|
            callCode (.setIsPreviousEnabled false) p.isPreviousEnabled InitializeHandlerCode <|
            .writeInitialized true (.unlock (.finished (some true))))
        (.unlock (.finished (some false))))))

/-- The steps of `Shutdown` (lines 96-115); its handler only logs. -/
def ShutdownCode (isEnabled : CallResult) : Code :=
  .lock (.readSmtc
    (callCode (.setIsEnabled false) isEnabled (.finished none) <|
      .writeSmtc none (.writeInitialized false (.unlock (.finished none))))
    (.writeInitialized false (.unlock (.finished none))))

/-- The steps of `SetPlaybackState` (lines 117-134); its handler only logs. -/
def SetPlaybackStateCode (state : PlaybackState) (playbackStatus : CallResult) : Code :=
  .lock (.readInitialized
    (.readSmtc
      (callCode (.setPlaybackStatus (ToWinRTState state)) playbackStatus (.finished none) <|
        .unlock (.finished none))
      (.unlock (.finished none)))
    (.unlock (.finished none)))

/-- The steps of `IsInitialized` (lines 257-261). -/
def IsInitializedCode : Code :=
  .lock (.readInitialized (.unlock (.finished (some true))) (.unlock (.finished (some false))))

/-- The lock discipline, read off the code: with `held` telling whether the
thread holds `m_mutex`, every read and write of `m_initialized` and `m_smtc` on
every branch is made while the mutex is held, the mutex is only taken when not
held and only released when held. -/
def Code.underMutex : Bool → Code → Bool
  | _, .finished _ => true
  | _, .terminate => true
  | held, .lock next => !held && next.underMutex true
  | held, .unlock next => held && next.underMutex false
  | held, .readInitialized a b => held && a.underMutex held && b.underMutex held
  | held, .readSmtc a b => held && a.underMutex held && b.underMutex held
  | held, .writeInitialized _ next => held && next.underMutex held
  | held, .writeSmtc _ next => held && next.underMutex held
  | held, .platform _ _ next => next.underMutex held

/-- The code is a read or a write of one of the two members. -/
def Code.isMemberAccess : Code → Bool
  | .readInitialized _ _ => true
  | .readSmtc _ _ => true
  | .writeInitialized _ _ => true
  | .writeSmtc _ _ => true
  | _ => false

/-- The thread has returned from its call. -/
def Code.isFinished : Code → Bool
  | .finished _ => true
  | _ => false

/-- The state shared by the threads: the world, the thread that holds
`m_mutex`, and whether some read or write of a member was made by a thread that
did not hold it. -/
structure Shared where
  world : World
  owner : Option Nat := none
  unguarded : Bool := false
deriving DecidableEq

/-- One atomic step of thread `t`; `none` when the thread cannot step (it waits
for the mutex, has returned, or the process was terminated). -/
def Code.step (t : Nat) : Code → Shared → Option (Code × Shared)
  | .finished _, _ => none
  | .terminate, _ => none
  | .lock next, s => if s.owner = none then some (next, { s with owner := some t }) else none
  | .unlock next, s => some (next, { s with owner := none })
  | .readInitialized a b, s =>
    some (if s.world.m_initialized then a else b,
      { s with unguarded := s.unguarded || decide (s.owner ≠ some t) })
  | .readSmtc a b, s =>
    some (if s.world.m_smtc.isSome then a else b,
      { s with unguarded := s.unguarded || decide (s.owner ≠ some t) })
  | .writeInitialized v next, s =>
    some (next, { s with world := { s.world with m_initialized := v },
                         unguarded := s.unguarded || decide (s.owner ≠ some t) })
  | .writeSmtc h next, s =>
    some (next, { s with world := { s.world with m_smtc := h },
                         unguarded := s.unguarded || decide (s.owner ≠ some t) })
  | .platform c succeeds next, s =>
    some (next, { s with world := { s.world with
      calls := s.world.calls ++ [c],
      session := if succeeds then c.effect s.world.session else s.world.session } })

/-- Two threads, each inside one call on the same object. -/
structure System where
  shared : Shared
  first : Code
  second : Code
deriving DecidableEq

/-- The scheduler lets the first (`true`) or the second (`false`) thread take
one step; a thread that cannot step leaves the system as it is. -/
def System.step (sys : System) (pickFirst : Bool) : System :=
  if pickFirst then
    match sys.first.step 0 sys.shared with
    | some (code, s) => { sys with first := code, shared := s }
    | none => sys
  else
    match sys.second.step 1 sys.shared with
    | some (code, s) => { sys with second := code, shared := s }
    | none => sys

/-- An interleaving: the system after the scheduler's choices, in order. -/
def System.run (sys : System) (schedule : List Bool) : System :=
  schedule.foldl System.step sys

/-- Two threads start their calls on the object in world `w`, the mutex free. -/
def System.start (w : World) (first second : Code) : System :=
  { shared := { world := w }, first := first, second := second }

/-- A thread running alone from a free mutex, to the end of its call. -/
def Code.runAlone : Code → World → Step (Option Bool)
  | .finished r, w => .returned r w
  | .terminate, _ => .terminated
  | .lock next, w => next.runAlone w
  | .unlock next, w => next.runAlone w
  | .readInitialized a b, w => if w.m_initialized then a.runAlone w else b.runAlone w
  | .readSmtc a b, w => if w.m_smtc.isSome then a.runAlone w else b.runAlone w
  | .writeInitialized v next, w => next.runAlone { w with m_initialized := v }
  | .writeSmtc h next, w => next.runAlone { w with m_smtc := h }
  | .platform c succeeds next, w =>
    next.runAlone { w with
      calls := w.calls ++ [c],
      session := if succeeds then c.effect w.session else w.session }

/-- The code makes no write to `m_initialized` or `m_smtc`. -/
def Code.keepsMembers : Code → Bool
  | .finished _ => true
  | .terminate => true
  | .lock next => next.keepsMembers
  | .unlock next => next.keepsMembers
  | .readInitialized a b => a.keepsMembers && b.keepsMembers
  | .readSmtc a b => a.keepsMembers && b.keepsMembers
  | .writeInitialized _ _ => false
  | .writeSmtc _ _ => false
  | .platform _ _ next => next.keepsMembers

/-- The call changes the playback status of the session to a value outside
`vals`. -/
def PlatformCall.leavesStatusIn (vals : List MediaPlaybackState) : PlatformCall → Bool
  | .setPlaybackStatus v => decide (v ∈ vals)
  | _ => true

/-- Every platform call of the code leaves a playback status in `vals` in
`vals`, and sets it only to a value in `vals`. -/
def Code.statusIn (vals : List MediaPlaybackState) : Code → Bool
  | .finished _ => true
  | .terminate => true
  | .lock next => next.statusIn vals
  | .unlock next => next.statusIn vals
  | .readInitialized a b => a.statusIn vals && b.statusIn vals
  | .readSmtc a b => a.statusIn vals && b.statusIn vals
  | .writeInitialized _ next => next.statusIn vals
  | .writeSmtc _ next => next.statusIn vals
  | .platform c _ next => c.leavesStatusIn vals && next.statusIn vals

/-- The call is a `PlaybackStatus(...)` call. -/
def PlatformCall.isSetPlaybackStatus : PlatformCall → Bool
  | .setPlaybackStatus _ => true
  | _ => false

/-- On an initialized object (flag set, handle not null) the thread makes a
successful `PlaybackStatus(...)` call before it returns. -/
def Code.willSetStatus : Code → Bool
  | .finished _ => false
  | .terminate => true
  | .lock next => next.willSetStatus
  | .unlock next => next.willSetStatus
  | .readInitialized a _ => a.willSetStatus
  | .readSmtc a _ => a.willSetStatus
  | .writeInitialized _ next => next.willSetStatus
  | .writeSmtc _ next => next.willSetStatus
  | .platform c succeeds next => (succeeds && c.isSetPlaybackStatus) || next.willSetStatus

/-- Apply a function to the value a computation returned. -/
def Step.map {α β : Type} (f : α → β) : Step α → Step β
  | .returned a w => .returned (f a) w
  | .raised e w => .raised e w
  | .terminated => .terminated

/-- Both threads keep the lock discipline and no member was accessed without
the mutex. -/
def System.Disciplined (sys : System) : Prop :=
  sys.shared.unguarded = false ∧
  sys.first.underMutex (decide (sys.shared.owner = some 0)) = true ∧
  sys.second.underMutex (decide (sys.shared.owner = some 1)) = true

/-- What holds throughout an interleaving of two calls that publish a playback
status in `vals` on an initialized object: the object stays initialized, and a
thread that has not yet made its `PlaybackStatus(...)` call will make it, while
once one has been made the status is in `vals`. -/
def System.Publishing (vals : List MediaPlaybackState) (sys : System) : Prop :=
  Initialized sys.shared.world ∧
  sys.first.keepsMembers = true ∧ sys.first.statusIn vals = true ∧
  sys.second.keepsMembers = true ∧ sys.second.statusIn vals = true ∧
  (sys.first.willSetStatus = true ∨ sys.shared.world.session.playbackStatus ∈ vals) ∧
  (sys.second.willSetStatus = true ∨ sys.shared.world.session.playbackStatus ∈ vals)

/-! ## Rules for `Sat` -/

theorem sat_bind {α β : Type} (m : Exec α) (f : α → Exec β) (w : World)
    (Q : β → World → Prop) (E : Raised → World → Prop) (T : Prop) :
    Sat (m >>= f) w Q E T ↔ Sat m w (fun a w1 => Sat (f a) w1 Q E T) E T := by
  show Sat (Exec.bind m f) w Q E T ↔ _
  unfold Sat Exec.bind
  cases m w <;> simp

theorem sat_pure {α : Type} (a : α) (w : World)
    (Q : α → World → Prop) (E : Raised → World → Prop) (T : Prop) :
    Sat (pure a : Exec α) w Q E T ↔ Q a w := Iff.rfl

theorem sat_getWorld (w : World)
    (Q : World → World → Prop) (E : Raised → World → Prop) (T : Prop) :
    Sat getWorld w Q E T ↔ Q w w := Iff.rfl

theorem sat_setSmtc (h : Option Handle) (w : World)
    (Q : Unit → World → Prop) (E : Raised → World → Prop) (T : Prop) :
    Sat (setSmtc h) w Q E T ↔ Q () { w with m_smtc := h } := Iff.rfl

theorem sat_setInitialized (b : Bool) (w : World)
    (Q : Unit → World → Prop) (E : Raised → World → Prop) (T : Prop) :
    Sat (setInitialized b) w Q E T ↔ Q () { w with m_initialized := b } := Iff.rfl

theorem sat_call (c : PlatformCall) (r : CallResult) (effect : Session → Session) (w : World)
    (Q : Unit → World → Prop) (E : Raised → World → Prop) (T : Prop) :
    Sat (call c r effect) w Q E T ↔
      (r = .ok → Q () { w with calls := w.calls ++ [c], session := effect w.session }) ∧
      (r = .throwsStd → E .stdException { w with calls := w.calls ++ [c] }) ∧
      (r = .throwsOther → E .otherException { w with calls := w.calls ++ [c] }) := by
  cases r <;> simp [Sat, call]

theorem sat_fetch {α : Type} (c : PlatformCall) (r : Fetched α) (w : World)
    (Q : Option α → World → Prop) (E : Raised → World → Prop) (T : Prop) :
    Sat (fetch c r) w Q E T ↔
      (∀ a, r = .object a → Q (some a) { w with calls := w.calls ++ [c] }) ∧
      (r = .null → Q none { w with calls := w.calls ++ [c] }) ∧
      (r = .throwsStd → E .stdException { w with calls := w.calls ++ [c] }) ∧
      (r = .throwsOther → E .otherException { w with calls := w.calls ++ [c] }) := by
  cases r <;> simp [Sat, fetch]

theorem sat_ite {α : Type} (c : Prop) [Decidable c] (m1 m2 : Exec α) (w : World)
    (Q : α → World → Prop) (E : Raised → World → Prop) (T : Prop) :
    Sat (if c then m1 else m2) w Q E T ↔ (c → Sat m1 w Q E T) ∧ (¬ c → Sat m2 w Q E T) := by
  by_cases h : c <;> simp [h]

theorem sat_noexceptTry {α : Type} (body handler : Exec α) (w : World)
    (Q : α → World → Prop) (E : Raised → World → Prop) (T : Prop) :
    Sat (noexceptTry body handler) w Q E T ↔
      Sat body w Q
        (fun e w1 => (e = .stdException → Sat handler w1 Q (fun _ _ => T) T) ∧
          (e = .otherException → T)) T := by
  unfold Sat noexceptTry
  cases hb : body w with
  | returned a w1 => simp
  | raised e w1 =>
    cases e
    · cases hh : handler w1 <;> simp [hh]
    · simp
  | terminated => simp

theorem sat_noexceptTryAll {α : Type} (body handler : Exec α) (w : World)
    (Q : α → World → Prop) (E : Raised → World → Prop) (T : Prop) :
    Sat (noexceptTryAll body handler) w Q E T ↔
      Sat body w Q (fun _ w1 => Sat handler w1 Q (fun _ _ => T) T) T := by
  unfold Sat noexceptTryAll
  cases hb : body w with
  | returned a w1 => simp
  | raised e w1 => cases hh : handler w1 <;> simp [hh]
  | terminated => simp

theorem Sat.of_returned {α : Type} {m : Exec α} {w w1 : World} {a : α}
    {Q : α → World → Prop} {E : Raised → World → Prop} {T : Prop}
    (h : Sat m w Q E T) (hr : m w = .returned a w1) : Q a w1 := by
  unfold Sat at h; rw [hr] at h; exact h

theorem Sat.of_raised {α : Type} {m : Exec α} {w w1 : World} {e : Raised}
    {Q : α → World → Prop} {E : Raised → World → Prop} {T : Prop}
    (h : Sat m w Q E T) (hr : m w = .raised e w1) : E e w1 := by
  unfold Sat at h; rw [hr] at h; exact h


theorem bind_eq {α β : Type} (m : Exec α) (f : α → Exec β) (w : World) :
    (m >>= f) w = match m w with
      | .returned a w1 => f a w1
      | .raised e w1 => .raised e w1
      | .terminated => .terminated := rfl

theorem pure_eq {α : Type} (a : α) (w : World) : (pure a : Exec α) w = .returned a w := rfl

/-! ## Lifecycle lemmas -/

theorem Initialize_sat_flag (p : InitializePlatform) (w : World) :
    Sat (Initialize p) w
      (fun b w1 => (w.m_initialized = true → b = true ∧ w1 = w) ∧
        (w.m_initialized = false → w1.m_initialized = b))
      (fun _ _ => False) True := by
  simp only [Initialize, InitializeBody, InitializeHandler, sat_noexceptTry, sat_bind, sat_pure,
    sat_getWorld, sat_setSmtc, sat_setInitialized, sat_call, sat_fetch, sat_ite]
  cases hw : w.m_initialized <;> simp

theorem Shutdown_sat_flag (e : CallResult) (w : World) :
    Sat (Shutdown e) w
      (fun _ w1 => (e ≠ .throwsStd → w1.m_initialized = false) ∧
        (w.m_initialized = false → w1.m_initialized = false))
      (fun _ _ => False) True := by
  simp only [Shutdown, ShutdownBody, sat_noexceptTry, sat_bind, sat_pure,
    sat_getWorld, sat_setSmtc, sat_setInitialized, sat_call, sat_ite]
  cases hw : w.m_initialized <;> cases e <;> simp

theorem Initialize_flag_after (p : InitializePlatform) (w w1 : World) (b : Bool)
    (h : Initialize p w = .returned b w1) : w1.m_initialized = (w.m_initialized || b) := by
  have hs := (Initialize_sat_flag p w).of_returned h
  cases hw : w.m_initialized
  · simpa using hs.2 hw
  · obtain ⟨hb, hw1⟩ := hs.1 hw
    simp [hw1, hw]

theorem runLifecycle_flag (calls : List LifecycleCall) :
    ∀ (w w1 : World) (trace : List LifecycleEvent),
      (∀ x ∈ calls, x ≠ LifecycleCall.callShutdown .throwsStd) →
      runLifecycle w calls = some (w1, trace) →
      w1.m_initialized = traceFlag w.m_initialized trace := by
  induction calls with
  | nil =>
    intro w w1 trace _ h
    simp [runLifecycle] at h
    obtain ⟨rfl, rfl⟩ := h
    rfl
  | cons c rest ih =>
    intro w w1 trace hok h
    have hrest : ∀ x ∈ rest, x ≠ LifecycleCall.callShutdown .throwsStd :=
      fun x hx => hok x (List.mem_cons_of_mem _ hx)
    cases c with
    | callInitialize p =>
      cases hi : Initialize p w with
      | returned b w2 =>
        simp only [runLifecycle, hi, Option.map_eq_some'] at h
        obtain ⟨⟨w3, t3⟩, hrun, heq⟩ := h
        simp only [Prod.mk.injEq] at heq
        obtain ⟨rfl, rfl⟩ := heq
        rw [ih w2 w3 t3 hrest hrun, Initialize_flag_after p w w2 b hi]
        rfl
      | raised e w2 => simp [runLifecycle, hi] at h
      | terminated => simp [runLifecycle, hi] at h
    | callShutdown e =>
      have he : e ≠ .throwsStd := fun hE => hok _ (List.mem_cons_self _ _) (by rw [hE])
      cases hi : Shutdown e w with
      | returned u w2 =>
        simp only [runLifecycle, hi, Option.map_eq_some'] at h
        obtain ⟨⟨w3, t3⟩, hrun, heq⟩ := h
        simp only [Prod.mk.injEq] at heq
        obtain ⟨rfl, rfl⟩ := heq
        rw [ih w2 w3 t3 hrest hrun, ((Shutdown_sat_flag e w).of_returned hi).1 he]
        rfl
      | raised e w2 => simp [runLifecycle, hi] at h
      | terminated => simp [runLifecycle, hi] at h

theorem initializedByTrace_nil : ¬ InitializedByTrace [] := by
  rintro ⟨before, after, h, _⟩
  simp at h

theorem initializedByTrace_cons (ev : LifecycleEvent) (t : List LifecycleEvent) :
    InitializedByTrace (ev :: t) ↔
      (ev = .initializeReturned true ∧ ∀ e ∈ t, e ≠ LifecycleEvent.shutdownReturned) ∨
        (InitializedByTrace t) := by
  constructor
  · rintro ⟨before, after, h, hs⟩
    cases before with
    | nil =>
      simp only [List.nil_append, List.cons.injEq] at h
      obtain ⟨rfl, rfl⟩ := h
      exact Or.inl ⟨rfl, hs⟩
    | cons b bs =>
      simp only [List.cons_append, List.cons.injEq] at h
      exact Or.inr ⟨bs, after, h.2, hs⟩
  · rintro (⟨rfl, hs⟩ | ⟨before, after, h, hs⟩)
    · exact ⟨[], t, rfl, hs⟩
    · exact ⟨ev :: before, after, by simp [h], hs⟩

theorem traceFlag_iff (trace : List LifecycleEvent) :
    ∀ b : Bool, traceFlag b trace = true ↔
      InitializedByTrace trace ∨
        (b = true ∧ ∀ e ∈ trace, e ≠ LifecycleEvent.shutdownReturned) := by
  induction trace with
  | nil =>
    intro b
    simp [traceFlag, initializedByTrace_nil]
  | cons ev t ih =>
    intro b
    cases ev with
    | initializeReturned r =>
      rw [traceFlag, ih, initializedByTrace_cons]
      cases b <;> cases r <;> simp <;> tauto
    | shutdownReturned =>
      rw [traceFlag, ih, initializedByTrace_cons]
      simp

theorem freshInstance_initialized (s : Session) (r : Fetched Handle) :
    (freshInstance s r).m_initialized = false ∧ (freshInstance s r).m_smtc = none := by
  cases r <;> exact ⟨rfl, rfl⟩

/-! ## The claims -/

/-- C1 (code defect).  On a freshly constructed object, when the platform call
`GetForCurrentView()` made by `Initialize` raises an exception that does not
derive from `std::exception`, `Initialize` does not return `false`: the process
is terminated.  `IsAvailable`, whose handler is `catch (...)`, returns `false`
under the same platform outcome, and on an initialized object the same kind of
exception terminates `Shutdown`, `SetPlaybackState`, `UpdateMetadata`,
`SetAlbumArt` and `ClearAlbumArt` as well. -/
theorem C1_foreign_exception_terminates :
    Initialize { getForCurrentView := .throwsOther } (freshInstance {} .throwsOther)
        = .terminated ∧
      IsAvailable .throwsOther (freshInstance {} .throwsOther)
        = .returned false { calls := [.getForCurrentView, .getForCurrentView] } ∧
      Shutdown .throwsOther { m_smtc := some ⟨1⟩, m_initialized := true } = .terminated ∧
      SetPlaybackState PlaybackState.Playing .throwsOther
        { m_smtc := some ⟨1⟩, m_initialized := true } = .terminated ∧
      UpdateMetadata {} { displayUpdater := .throwsOther }
        { m_smtc := some ⟨1⟩, m_initialized := true } = .terminated ∧
      SetAlbumArt (some [255, 216]) 2 "image/jpeg" { displayUpdater := .throwsOther }
        { m_smtc := some ⟨1⟩, m_initialized := true } = .terminated ∧
      ClearAlbumArt { displayUpdater := .throwsOther }
        { m_smtc := some ⟨1⟩, m_initialized := true } = .terminated := by
  decide

/-- C2 (code defect).  On a freshly constructed object (where the handle is null
and the flag is clear), an `Initialize` whose `GetForCurrentView()` yields a
session and whose later call `IsEnabled(true)` raises a `std::exception` returns
`false` with the flag clear but the handle still set, so the predicate
"handle non-null iff Initialized" no longer holds; the path on which the display
updater is null does reset the handle. -/
theorem C2_failed_initialize_keeps_handle :
    HandleMatchesFlag (freshInstance {} (.object ⟨1⟩)) ∧
      (∃ w1, Initialize { getForCurrentView := .object ⟨1⟩, isEnabled := .throwsStd }
          (freshInstance {} (.object ⟨1⟩)) = .returned false w1 ∧
        w1.m_initialized = false ∧ w1.m_smtc = some ⟨1⟩ ∧ ¬ HandleMatchesFlag w1) ∧
      (∃ w1, Initialize { getForCurrentView := .object ⟨1⟩, displayUpdater := .null }
          (freshInstance {} (.object ⟨1⟩)) = .returned false w1 ∧
        w1.m_initialized = false ∧ w1.m_smtc = none ∧ HandleMatchesFlag w1) := by
  refine ⟨by decide, ⟨_, rfl, rfl, rfl, by decide⟩, ⟨_, rfl, rfl, rfl, by decide⟩⟩

/-- C3 (code defect).  On a fresh instance, `Initialize` succeeds and the
following `Shutdown` meets a `std::exception` in `IsEnabled(false)` (line 104):
the statements that release the handle and clear the flag (lines 105 and 108) are
skipped and the handler only logs, so both calls return and `IsInitialized()` is
`true` afterwards, with the handle still set, although a `Shutdown` call comes
after the only `Initialize` that returned `true`.  When `IsEnabled(false)`
succeeds, the same sequence ends with the flag clear and the handle null. -/
theorem C3_shutdown_exception_stays_initialized :
    (∃ w, runLifecycle (freshInstance {} (.object ⟨1⟩))
        [.callInitialize { getForCurrentView := .object ⟨1⟩ }, .callShutdown .throwsStd]
        = some (w, [.initializeReturned true, .shutdownReturned]) ∧
      IsInitialized w = .returned true w ∧
      w.m_smtc = some ⟨1⟩ ∧
      ¬ InitializedByTrace [.initializeReturned true, .shutdownReturned]) ∧
    (∃ w, runLifecycle (freshInstance {} (.object ⟨1⟩))
        [.callInitialize { getForCurrentView := .object ⟨1⟩ }, .callShutdown .ok]
        = some (w, [.initializeReturned true, .shutdownReturned]) ∧
      IsInitialized w = .returned false w ∧
      w.m_smtc = none) := by
  refine ⟨⟨_, rfl, rfl, rfl, ?_⟩, ⟨_, rfl, rfl, rfl⟩⟩
  simp [initializedByTrace_cons, initializedByTrace_nil]

/-- The lifecycle when no `Shutdown` is cut short.  For every finite sequence of
`Initialize` and `Shutdown` calls on a fresh instance in which every call returns
and no `Shutdown` has its `IsEnabled(false)` call raise a `std::exception`,
`IsInitialized()` afterwards is `true` if and only if some `Initialize` call of
the sequence returned `true` and no `Shutdown` call comes after it.  In the state
reached, `Initialize` on an initialized instance returns `true` and changes
nothing (no member, no platform call), and a `Shutdown` that returns on an
uninitialized instance leaves it uninitialized. -/
theorem lifecycle_of_completed_shutdowns (s : Session) (r : Fetched Handle) (calls : List LifecycleCall)
    (w : World) (trace : List LifecycleEvent)
    (hShutdown : ∀ x ∈ calls, x ≠ LifecycleCall.callShutdown .throwsStd)
    (hrun : runLifecycle (freshInstance s r) calls = some (w, trace)) :
    (IsInitialized w = .returned true w ↔ InitializedByTrace trace) ∧
      (∀ p, w.m_initialized = true → Initialize p w = .returned true w) ∧
      (∀ e w1, w.m_initialized = false → Shutdown e w = .returned () w1 →
        w1.m_initialized = false) := by
  have hflag := runLifecycle_flag calls _ w trace hShutdown hrun
  rw [(freshInstance_initialized s r).1] at hflag
  refine ⟨?_, ?_, ?_⟩
  · have h1 : (IsInitialized w = .returned true w) ↔ w.m_initialized = true := by
      simp [IsInitialized]
    rw [h1, hflag, traceFlag_iff]
    simp
  · intro p hw
    cases hi : Initialize p w with
    | returned b w1 =>
      obtain ⟨hb, hw1⟩ := ((Initialize_sat_flag p w).of_returned hi).1 hw
      rw [hb, hw1]
    | raised e w1 => exact ((Initialize_sat_flag p w).of_raised hi).elim
    | terminated =>
      simp [Initialize, noexceptTry, InitializeBody, getWorld, bind_eq, pure_eq, hw] at hi
  · intro e w1 hw hs
    exact ((Shutdown_sat_flag e w).of_returned hs).2 hw

/-- An instance of the lifecycle: an `Initialize` that fails, a `Shutdown`, then
an `Initialize` that succeeds. -/
theorem lifecycle_of_completed_shutdowns_example :
    (∀ x ∈ [LifecycleCall.callInitialize { getForCurrentView := .null },
        LifecycleCall.callShutdown .ok,
        LifecycleCall.callInitialize { getForCurrentView := .object ⟨7⟩ }],
      x ≠ LifecycleCall.callShutdown .throwsStd) ∧
    ((IsInitialized
          { m_smtc := some ⟨7⟩, m_initialized := true,
            session := { isEnabled := true, isPlayEnabled := true, isPauseEnabled := true,
                         isStopEnabled := true, staged := { isMusic := true } },
            calls := [.getForCurrentView, .getForCurrentView, .getForCurrentView,
              .displayUpdater, .setType, .setIsEnabled true, .setIsPlayEnabled true,
              .setIsPauseEnabled true, .setIsStopEnabled true, .setIsNextEnabled false,
              .setIsPreviousEnabled false] }
        = .returned true
          { m_smtc := some ⟨7⟩, m_initialized := true,
            session := { isEnabled := true, isPlayEnabled := true, isPauseEnabled := true,
                         isStopEnabled := true, staged := { isMusic := true } },
            calls := [.getForCurrentView, .getForCurrentView, .getForCurrentView,
              .displayUpdater, .setType, .setIsEnabled true, .setIsPlayEnabled true,
              .setIsPauseEnabled true, .setIsStopEnabled true, .setIsNextEnabled false,
              .setIsPreviousEnabled false] }) ↔
      InitializedByTrace
        [.initializeReturned false, .shutdownReturned, .initializeReturned true]) :=
  ⟨by decide,
    (lifecycle_of_completed_shutdowns {} (.object ⟨7⟩)
      [LifecycleCall.callInitialize { getForCurrentView := .null },
        LifecycleCall.callShutdown .ok,
        LifecycleCall.callInitialize { getForCurrentView := .object ⟨7⟩ }]
      _ _ (by decide) (by decide)).1⟩

/-! ## Frame lemmas -/

theorem callsSince_append (w : World) (l : List PlatformCall) (w1 : World)
    (h : w1.calls = w.calls ++ l) : callsSince w w1 = l := by
  simp [callsSince, h]

theorem Sat.exists_returned {α : Type} {m : Exec α} {w : World} {Q : α → World → Prop}
    (h : Sat m w Q (fun _ _ => False) False) : ∃ a w1, m w = .returned a w1 ∧ Q a w1 := by
  unfold Sat at h
  cases hm : m w with
  | returned a w1 => rw [hm] at h; exact ⟨a, w1, rfl, h⟩
  | raised e w1 => rw [hm] at h; exact h.elim
  | terminated => rw [hm] at h; exact h.elim

theorem Initialize_sat_calls (p : InitializePlatform) (w : World) :
    Sat (Initialize p) w
      (fun _ w1 => ∀ x ∈ callsSince w w1, x.isPublish = false)
      (fun _ _ => True) True := by
  simp only [Initialize, InitializeBody, InitializeHandler, sat_noexceptTry, sat_bind, sat_pure,
    sat_getWorld, sat_setSmtc, sat_setInitialized, sat_call, sat_fetch, sat_ite]
  simp [callsSince, PlatformCall.isPublish]

/-- C4.  In every state in which the flag `m_initialized` is clear, and for every
argument and platform behaviour, `SetPlaybackState`, `UpdateMetadata`,
`SetAlbumArt` and `ClearAlbumArt` return with the world exactly as it was: no
platform call is recorded, the flag, the handle and every session field are
unchanged.  A later `Initialize` therefore starts from the same state, and the
calls it makes contain no playback-status, metadata, timeline, thumbnail or
commit call: nothing missed is replayed. -/
theorem C4_uninitialized_calls_are_noops (w : World) (hw : w.m_initialized = false)
    (state : PlaybackState) (r : CallResult) (metadata : MediaMetadata)
    (p : UpdateMetadataPlatform) (imageData : Option (List Nat)) (imageDataSize : Nat)
    (mimeType : String) (q : SetAlbumArtPlatform) (c : ClearAlbumArtPlatform) :
    SetPlaybackState state r w = .returned () w ∧
      UpdateMetadata metadata p w = .returned () w ∧
      SetAlbumArt imageData imageDataSize mimeType q w = .returned () w ∧
      ClearAlbumArt c w = .returned () w ∧
      (∀ ip b w1, Initialize ip w = .returned b w1 →
        ∀ x ∈ callsSince w w1, x.isPublish = false) := by
  refine ⟨?_, ?_, ?_, ?_, ?_⟩
  · simp [SetPlaybackState, noexceptTry, SetPlaybackStateBody, getWorld, bind_eq, pure_eq, hw]
  · simp [UpdateMetadata, noexceptTry, UpdateMetadataBody, getWorld, bind_eq, pure_eq, hw]
  · simp [SetAlbumArt, noexceptTry, SetAlbumArtBody, getWorld, bind_eq, pure_eq, hw]
  · simp [ClearAlbumArt, noexceptTry, ClearAlbumArtBody, getWorld, bind_eq, pure_eq, hw]
  · intro ip b w1 h
    exact (Initialize_sat_calls ip w).of_returned h

/-- C4 (witness): the freshly constructed object. -/
theorem C4_uninitialized_calls_are_noops_witness :
    (freshInstance {} .null).m_initialized = false ∧
      SetPlaybackState PlaybackState.Playing .ok (freshInstance {} .null)
        = .returned () (freshInstance {} .null) ∧
      UpdateMetadata { title := "Song" } {} (freshInstance {} .null)
        = .returned () (freshInstance {} .null) :=
  ⟨by decide,
    (C4_uninitialized_calls_are_noops (freshInstance {} .null) (by decide)
      PlaybackState.Playing .ok { title := "Song" } {} (some [1, 2]) 2 "image/png" {} {}).1,
    (C4_uninitialized_calls_are_noops (freshInstance {} .null) (by decide)
      PlaybackState.Playing .ok { title := "Song" } {} (some [1, 2]) 2 "image/png" {} {}).2.1⟩

/-- C5.  `ToWinRTState` maps each of the five enumerators of `PlaybackState` to
the platform state of the same name, is injective on them, and maps every other
underlying integer to `Closed`.  On an initialized instance `SetPlaybackState`
makes exactly one platform call, `PlaybackStatus(ToWinRTState(state))`, and when
that call succeeds the playback status of the session is `ToWinRTState(state)`
and nothing else has changed. -/
theorem C5_playback_state_mapping (w : World) (hw : Initialized w) (state : PlaybackState) :
    ToWinRTState PlaybackState.Closed = MediaPlaybackState.Closed ∧
      ToWinRTState PlaybackState.Opening = MediaPlaybackState.Opening ∧
      ToWinRTState PlaybackState.Playing = MediaPlaybackState.Playing ∧
      ToWinRTState PlaybackState.Paused = MediaPlaybackState.Paused ∧
      ToWinRTState PlaybackState.Stopped = MediaPlaybackState.Stopped ∧
      (∀ a ∈ PlaybackState.enumerators, ∀ b ∈ PlaybackState.enumerators,
        ToWinRTState a = ToWinRTState b → a = b) ∧
      (∀ other, other ∉ PlaybackState.enumerators →
        ToWinRTState other = MediaPlaybackState.Closed) ∧
      SetPlaybackState state .ok w = .returned ()
        { w with
          calls := w.calls ++ [.setPlaybackStatus (ToWinRTState state)],
          session := { w.session with playbackStatus := ToWinRTState state } } ∧
      (∀ r w1, SetPlaybackState state r w = .returned () w1 →
        callsSince w w1 = [.setPlaybackStatus (ToWinRTState state)]) := by
  obtain ⟨h1, h2⟩ := hw
  obtain ⟨hd, h3⟩ := Option.isSome_iff_exists.mp h2
  refine ⟨by decide, by decide, by decide, by decide, by decide, ?_, ?_, ?_, ?_⟩
  · intro a ha b hb
    simp only [PlaybackState.enumerators, List.mem_cons, List.mem_singleton,
      List.not_mem_nil, or_false] at ha hb
    rcases ha with rfl | rfl | rfl | rfl | rfl <;> rcases hb with rfl | rfl | rfl | rfl | rfl <;>
      decide
  · intro other ho
    simp only [PlaybackState.enumerators, List.mem_cons, List.mem_singleton,
      List.not_mem_nil, or_false, not_or] at ho
    obtain ⟨_, h4, h5, h6, h7⟩ := ho
    simp [ToWinRTState, h4, h5, h6, h7]
  · simp [SetPlaybackState, noexceptTry, SetPlaybackStateBody, getWorld, call, bind_eq, pure_eq,
      h1, h3]
  · intro r w1 h
    cases r <;>
      simp [SetPlaybackState, noexceptTry, SetPlaybackStateBody, getWorld, call, bind_eq, pure_eq,
        h1, h3] at h <;>
      simp [callsSince, ← h]

/-- C5 (witness): `SetPlaybackState(Paused)` on an initialized instance. -/
theorem C5_playback_state_mapping_witness :
    Initialized initializedExample ∧
      SetPlaybackState PlaybackState.Paused .ok initializedExample = .returned ()
        { initializedExample with
          calls := initializedExample.calls ++ [.setPlaybackStatus (ToWinRTState PlaybackState.Paused)],
          session := { initializedExample.session with
            playbackStatus := ToWinRTState PlaybackState.Paused } } :=
  ⟨by decide, (C5_playback_state_mapping initializedExample (by decide) PlaybackState.Paused).2.2.2.2.2.2.2.1⟩


/-! ## Metadata -/

theorem wrapInt64_seconds (x : Int) (h : IsInt32 x) :
    wrapInt64 (x * 10000000) = x * 10000000 := by
  unfold IsInt32 at h
  unfold wrapInt64
  omega

theorem UpdateMetadata_sat_success (w : World) (hw : Initialized w) (metadata : MediaMetadata)
    (p : UpdateMetadataPlatform) (hp : p.NoFailure) :
    Sat (UpdateMetadata metadata p) w
      (fun _ w1 =>
        w1.session.published.title = titleText metadata ∧
        w1.session.published.artist = artistText metadata ∧
        w1.session.published.album = albumText metadata ∧
        (0 < metadata.durationSeconds →
          w1.session.published.maxSeekTime = some (durationCount metadata) ∧
          w1.session.published.position = some (positionCount metadata)) ∧
        (¬ 0 < metadata.durationSeconds →
          w1.session.published.maxSeekTime = w.session.staged.maxSeekTime ∧
          w1.session.published.position = w.session.staged.position ∧
          callsSince w w1 = [.displayUpdater, .musicProperties,
            .setTitle (titleText metadata), .setArtist (artistText metadata),
            .setAlbumTitle (albumText metadata), .timelineProperties, .update]))
      (fun _ _ => False) False := by
  obtain ⟨h1, h2⟩ := hw
  obtain ⟨hd, h3⟩ := Option.isSome_iff_exists.mp h2
  obtain ⟨p1, p2, p3, p4, p5, p6, p7, p8, p9⟩ := hp
  simp only [UpdateMetadata, UpdateMetadataBody, sat_noexceptTry, sat_bind, sat_pure,
    sat_getWorld, sat_call, sat_fetch, sat_ite]
  by_cases hdur : 0 < metadata.durationSeconds <;>
    simp [h1, h3, p1, p2, p3, p4, p5, p6, p7, p8, p9, hdur, commit, callsSince]

/-- C6.  For every metadata record, on an initialized instance and when no
platform call fails, `UpdateMetadata` returns and the published title is
"Unknown" if `metadata.title` is empty and `metadata.title` otherwise, the
published artist is "Unknown Artist" if `metadata.artist` is empty and
`metadata.artist` otherwise, the published album is "Unknown Album" if
`metadata.album` is empty and `metadata.album` otherwise; none of the three
published fields is the empty string. -/
theorem C6_metadata_fallbacks (w : World) (hw : Initialized w) (metadata : MediaMetadata)
    (p : UpdateMetadataPlatform) (hp : p.NoFailure) :
    ∃ w1, UpdateMetadata metadata p w = .returned () w1 ∧
      w1.session.published.title
        = (if metadata.title = "" then "Unknown" else metadata.title) ∧
      w1.session.published.artist
        = (if metadata.artist = "" then "Unknown Artist" else metadata.artist) ∧
      w1.session.published.album
        = (if metadata.album = "" then "Unknown Album" else metadata.album) ∧
      w1.session.published.title ≠ "" ∧
      w1.session.published.artist ≠ "" ∧
      w1.session.published.album ≠ "" := by
  obtain ⟨_, w1, hret, ht, ha, hb, _, _⟩ :=
    (UpdateMetadata_sat_success w hw metadata p hp).exists_returned
  refine ⟨w1, hret, ht, ha, hb, ?_, ?_, ?_⟩
  · rw [ht, titleText]
    by_cases h : metadata.title = ""
    · rw [if_pos h]; decide
    · rw [if_neg h]; exact h
  · rw [ha, artistText]
    by_cases h : metadata.artist = ""
    · rw [if_pos h]; decide
    · rw [if_neg h]; exact h
  · rw [hb, albumText]
    by_cases h : metadata.album = ""
    · rw [if_pos h]; decide
    · rw [if_neg h]; exact h

/-- C6 (witness): an empty title and artist, a given album. -/
theorem C6_metadata_fallbacks_witness :
    Initialized initializedExample ∧ UpdateMetadataPlatform.NoFailure {} ∧
      ∃ w1, UpdateMetadata { album := "Kind of Blue" } {} initializedExample = .returned () w1 ∧
        w1.session.published.title = "Unknown" ∧
        w1.session.published.artist = "Unknown Artist" ∧
        w1.session.published.album = "Kind of Blue" := by
  refine ⟨by decide, by decide, ?_⟩
  obtain ⟨w1, hret, ht, ha, hb, _⟩ :=
    C6_metadata_fallbacks initializedExample (by decide) { album := "Kind of Blue" } {}
      (by decide)
  exact ⟨w1, hret, by simpa using ht, by simpa using ha, by simpa using hb⟩

/-- C7.  For every metadata record whose `durationSeconds` and `positionSeconds`
are 32-bit `int` values with `durationSeconds > 0`, on an initialized instance
and when no platform call fails, `UpdateMetadata` returns and the published
timeline has max-seek-time count `durationSeconds * 10000000` and position count
`positionSeconds * 10000000` as exact integers: both products lie in the signed
64-bit range, so the multiplication does not wrap. -/
theorem C7_timeline_conversion (w : World) (hw : Initialized w) (metadata : MediaMetadata)
    (p : UpdateMetadataPlatform) (hp : p.NoFailure)
    (hd32 : IsInt32 metadata.durationSeconds) (hp32 : IsInt32 metadata.positionSeconds)
    (hd : 0 < metadata.durationSeconds) :
    ∃ w1, UpdateMetadata metadata p w = .returned () w1 ∧
      w1.session.published.maxSeekTime = some (metadata.durationSeconds * 10000000) ∧
      w1.session.published.position = some (metadata.positionSeconds * 10000000) ∧
      -9223372036854775808 ≤ metadata.durationSeconds * 10000000 ∧
      metadata.durationSeconds * 10000000 ≤ 9223372036854775807 ∧
      -9223372036854775808 ≤ metadata.positionSeconds * 10000000 ∧
      metadata.positionSeconds * 10000000 ≤ 9223372036854775807 := by
  obtain ⟨_, w1, hret, _, _, _, htl, _⟩ :=
    (UpdateMetadata_sat_success w hw metadata p hp).exists_returned
  obtain ⟨hm, hpos⟩ := htl hd
  refine ⟨w1, hret, ?_, ?_, ?_, ?_, ?_, ?_⟩
  · rw [hm, durationCount, wrapInt64_seconds _ hd32]
  · rw [hpos, positionCount, wrapInt64_seconds _ hp32]
  all_goals (unfold IsInt32 at hd32 hp32; omega)

/-- C7 (witness): duration 180 gives 1,800,000,000 and position 30 gives
300,000,000. -/
theorem C7_timeline_conversion_witness :
    Initialized initializedExample ∧ UpdateMetadataPlatform.NoFailure {} ∧
      IsInt32 180 ∧ IsInt32 30 ∧ (0 : Int) < 180 ∧
      ∃ w1, UpdateMetadata { durationSeconds := 180, positionSeconds := 30 } {}
          initializedExample = .returned () w1 ∧
        w1.session.published.maxSeekTime = some 1800000000 ∧
        w1.session.published.position = some 300000000 := by
  refine ⟨by decide, by decide, by decide, by decide, by decide, ?_⟩
  obtain ⟨w1, hret, hm, hpos, _⟩ :=
    C7_timeline_conversion initializedExample (by decide)
      { durationSeconds := 180, positionSeconds := 30 } {} (by decide) (by decide) (by decide)
      (by decide)
  exact ⟨w1, hret, by simpa using hm, by simpa using hpos⟩

/-- C8 (counterexample).  On an initialized instance, an `UpdateMetadata` with
duration 180 and position 30 followed by an `UpdateMetadata` with
`durationSeconds = 0`, no platform call failing: after the second call the
published state still has a timeline, with max-seek-time 1,800,000,000 and
position 300,000,000, next to the new title. -/
theorem C8_counterexample :
    ∃ w1 w2,
      UpdateMetadata { title := "First", durationSeconds := 180, positionSeconds := 30 } {}
        initializedExample = .returned () w1 ∧
      UpdateMetadata { title := "Second", durationSeconds := 0 } {} w1 = .returned () w2 ∧
      w2.session.published.title = "Second" ∧
      w2.session.published.maxSeekTime = some 1800000000 ∧
      w2.session.published.position = some 300000000 ∧
      ¬ (w2.session.published.maxSeekTime = none ∧ w2.session.published.position = none) := by
  refine ⟨_, _, rfl, rfl, rfl, rfl, rfl, by decide⟩

/-- C8 (amended).  For every initialized state, whatever was published before,
when no platform call fails `UpdateMetadata` with `durationSeconds = 0` returns
without writing the timeline: it makes no `MaxSeekTime` or `Position` call, and
the published timeline is the one the session held before the call (so no
timeline is set when none had been set).  The title, artist and album are still
set (with their fallbacks) and committed by the single `Update()` call. -/
theorem C8_zero_duration_keeps_timeline (w : World) (hw : Initialized w)
    (metadata : MediaMetadata) (p : UpdateMetadataPlatform) (hp : p.NoFailure)
    (hd : metadata.durationSeconds = 0) :
    ∃ w1, UpdateMetadata metadata p w = .returned () w1 ∧
      w1.session.published.maxSeekTime = w.session.staged.maxSeekTime ∧
      w1.session.published.position = w.session.staged.position ∧
      (w.session.staged.maxSeekTime = none → w.session.staged.position = none →
        w1.session.published.maxSeekTime = none ∧ w1.session.published.position = none) ∧
      w1.session.published.title
        = (if metadata.title = "" then "Unknown" else metadata.title) ∧
      w1.session.published.artist
        = (if metadata.artist = "" then "Unknown Artist" else metadata.artist) ∧
      w1.session.published.album
        = (if metadata.album = "" then "Unknown Album" else metadata.album) ∧
      callsSince w w1 = [.displayUpdater, .musicProperties,
        .setTitle (if metadata.title = "" then "Unknown" else metadata.title),
        .setArtist (if metadata.artist = "" then "Unknown Artist" else metadata.artist),
        .setAlbumTitle (if metadata.album = "" then "Unknown Album" else metadata.album),
        .timelineProperties, .update] := by
  obtain ⟨_, w1, hret, ht, ha, hb, _, hz⟩ :=
    (UpdateMetadata_sat_success w hw metadata p hp).exists_returned
  have hnot : ¬ 0 < metadata.durationSeconds := by omega
  obtain ⟨hm, hpos, hcalls⟩ := hz hnot
  refine ⟨w1, hret, hm, hpos, ?_, ht, ha, hb, hcalls⟩
  intro h1 h2
  exact ⟨hm.trans h1, hpos.trans h2⟩

/-- C8 (witness): the record with every field empty, on an initialized instance
whose session has no timeline. -/
theorem C8_zero_duration_keeps_timeline_witness :
    Initialized initializedExample ∧ UpdateMetadataPlatform.NoFailure {} ∧
      ({} : MediaMetadata).durationSeconds = 0 ∧
      ∃ w1, UpdateMetadata {} {} initializedExample = .returned () w1 ∧
        w1.session.published.maxSeekTime = none ∧
        w1.session.published.position = none ∧
        w1.session.published.title = "Unknown" ∧
        w1.session.published.artist = "Unknown Artist" ∧
        w1.session.published.album = "Unknown Album" := by
  refine ⟨by decide, by decide, rfl, ?_⟩
  obtain ⟨w1, hret, _, _, hnone, ht, ha, hb, _⟩ :=
    C8_zero_duration_keeps_timeline initializedExample (by decide) {} {} (by decide) rfl
  exact ⟨w1, hret, (hnone rfl rfl).1, (hnone rfl rfl).2, by simpa using ht, by simpa using ha,
    by simpa using hb⟩

/-! ## Album art and failed calls -/

theorem CreateThumbnail_sat_frame (imageData : Option (List Nat)) (imageDataSize : Nat)
    (mimeType : String) (q : CreateThumbnailPlatform) (v : World) :
    Sat (CreateThumbnail imageData imageDataSize mimeType q) v
      (fun _ v1 => v1.session = v.session ∧ v1.m_initialized = v.m_initialized ∧
        v1.m_smtc = v.m_smtc ∧ ∃ l, v1.calls = v.calls ++ l ∧ ∀ x ∈ l, x.isPublish = false)
      (fun _ _ => False) True := by
  simp only [CreateThumbnail, CreateThumbnailBody, sat_noexceptTry, sat_bind, sat_pure,
    sat_call, sat_fetch, sat_ite]
  simp [PlatformCall.isPublish]

theorem noop_frame (w : World) :
    w.session = w.session ∧ w.m_initialized = w.m_initialized ∧ w.m_smtc = w.m_smtc ∧
      PlatformCall.update ∉ callsSince w w ∧
      ∀ t, PlatformCall.setThumbnail t ∉ callsSince w w := by
  simp [callsSince]

/-- C9.  For every state and every call `SetAlbumArt(bytes, size, mimeType)` in
which `bytes` is null, `size` is 0, or the thumbnail adapter `CreateThumbnail`
yields no handle (the `DisplayUpdater()` call made before it not having ended the
process), the call returns and is a no-op: the session, hence its thumbnail, is
the same as before, no `Thumbnail` and no `Update()` call is made, and the flag
and the handle are unchanged.  With a null or zero-length buffer the call makes
no platform call at all, and `CreateThumbnail` itself returns null for every null
or zero-length buffer, whatever the MIME type and the platform behaviour. -/
theorem C9_album_art_noop (w : World) (imageData : Option (List Nat)) (imageDataSize : Nat)
    (mimeType : String) (p : SetAlbumArtPlatform)
    (h : imageData = none ∨ imageDataSize = 0 ∨
      (p.displayUpdater ≠ .throwsOther ∧
        ∀ v, ∃ v1, CreateThumbnail imageData imageDataSize mimeType p.createThumbnail v
          = .returned none v1)) :
    (∃ w1, SetAlbumArt imageData imageDataSize mimeType p w = .returned () w1 ∧
        w1.session = w.session ∧ w1.m_initialized = w.m_initialized ∧ w1.m_smtc = w.m_smtc ∧
        PlatformCall.update ∉ callsSince w w1 ∧
        ∀ t, PlatformCall.setThumbnail t ∉ callsSince w w1) ∧
      ((imageData = none ∨ imageDataSize = 0) →
        SetAlbumArt imageData imageDataSize mimeType p w = .returned () w) ∧
      (∀ (mime : String) (q : CreateThumbnailPlatform) (v : World),
        CreateThumbnail none imageDataSize mime q v = .returned none v ∧
        CreateThumbnail imageData 0 mime q v = .returned none v) := by
  have hnone : imageData = none →
      SetAlbumArt imageData imageDataSize mimeType p w = .returned () w := by
    intro h0
    simp [SetAlbumArt, noexceptTry, SetAlbumArtBody, getWorld, bind_eq, pure_eq, h0]
  have hzero : imageDataSize = 0 →
      SetAlbumArt imageData imageDataSize mimeType p w = .returned () w := by
    intro h0
    simp [SetAlbumArt, noexceptTry, SetAlbumArtBody, getWorld, bind_eq, pure_eq, h0]
  refine ⟨?_, ?_, ?_⟩
  · rcases h with h | h | ⟨hdu, hnull⟩
    · exact ⟨w, hnone h, noop_frame w⟩
    · exact ⟨w, hzero h, noop_frame w⟩
    · by_cases hguard : ((w.m_initialized = false ∨ w.m_smtc = none) ∨ imageData = none) ∨
          imageDataSize = 0
      · refine ⟨w, ?_, noop_frame w⟩
        simp [SetAlbumArt, noexceptTry, SetAlbumArtBody, getWorld, bind_eq, pure_eq, hguard]
      · cases hd : p.displayUpdater with
        | object u =>
          obtain ⟨v1, hv1⟩ := hnull { w with calls := w.calls ++ [.displayUpdater] }
          obtain ⟨hs, hi, hm, l, hl, hpub⟩ := (CreateThumbnail_sat_frame _ _ _ _ _).of_returned hv1
          refine ⟨v1, ?_, hs, hi, hm, ?_, ?_⟩
          · simp [SetAlbumArt, noexceptTry, SetAlbumArtBody, getWorld, fetch, bind_eq, pure_eq,
              hguard, hd, hv1]
          · have hc : callsSince w v1 = PlatformCall.displayUpdater :: l :=
              callsSince_append w _ v1 (by simp [hl])
            rw [hc]
            intro hmem
            rcases List.mem_cons.mp hmem with h1 | h1
            · cases h1
            · have := hpub _ h1
              simp [PlatformCall.isPublish] at this
          · intro t
            have hc : callsSince w v1 = PlatformCall.displayUpdater :: l :=
              callsSince_append w _ v1 (by simp [hl])
            rw [hc]
            intro hmem
            rcases List.mem_cons.mp hmem with h1 | h1
            · cases h1
            · have := hpub _ h1
              simp [PlatformCall.isPublish] at this
        | null =>
          refine ⟨{ w with calls := w.calls ++ [.displayUpdater] }, ?_, rfl, rfl, rfl, ?_, ?_⟩
          · simp [SetAlbumArt, noexceptTry, SetAlbumArtBody, getWorld, fetch, bind_eq, pure_eq,
              hguard, hd]
          · simp [callsSince]
          · simp [callsSince]
        | throwsStd =>
          refine ⟨{ w with calls := w.calls ++ [.displayUpdater] }, ?_, rfl, rfl, rfl, ?_, ?_⟩
          · simp [SetAlbumArt, noexceptTry, SetAlbumArtBody, getWorld, fetch, bind_eq, pure_eq,
              hguard, hd]
          · simp [callsSince]
          · simp [callsSince]
        | throwsOther => exact (hdu hd).elim
  · rintro (h0 | h0)
    · exact hnone h0
    · exact hzero h0
  · intro mime q v
    constructor
    · simp [CreateThumbnail, noexceptTry, CreateThumbnailBody, bind_eq, pure_eq]
    · simp [CreateThumbnail, noexceptTry, CreateThumbnailBody, bind_eq, pure_eq]

/-- C9 (witness): `SetAlbumArt(nullptr, 0, "image/jpeg")` on an initialized
instance. -/
theorem C9_album_art_noop_witness :
    ((none : Option (List Nat)) = none ∨ (0 : Nat) = 0 ∨
      (({} : SetAlbumArtPlatform).displayUpdater ≠ .throwsOther ∧
        ∀ v, ∃ v1, CreateThumbnail none 0 "image/jpeg" ({} : SetAlbumArtPlatform).createThumbnail v
          = .returned none v1)) ∧
      SetAlbumArt none 0 "image/jpeg" {} initializedExample = .returned () initializedExample :=
  ⟨Or.inl rfl,
    (C9_album_art_noop initializedExample none 0 "image/jpeg" {} (Or.inl rfl)).2.1 (Or.inl rfl)⟩

theorem SetPlaybackStateBody_sat_frame (state : PlaybackState) (r : CallResult) (w : World) :
    Sat (SetPlaybackStateBody state r) w (fun _ _ => True)
      (fun _ w1 => NothingPublished w w1 ∧ w1.session = w.session) True := by
  simp only [SetPlaybackStateBody, sat_bind, sat_pure, sat_getWorld, sat_call, sat_ite]
  simp [NothingPublished]

theorem UpdateMetadataBody_sat_frame (metadata : MediaMetadata) (p : UpdateMetadataPlatform)
    (w : World) :
    Sat (UpdateMetadataBody metadata p) w (fun _ _ => True)
      (fun _ w1 => NothingPublished w w1) True := by
  simp only [UpdateMetadataBody, sat_bind, sat_pure, sat_getWorld, sat_call, sat_fetch, sat_ite]
  simp [NothingPublished]

theorem SetAlbumArtBody_sat_frame (imageData : Option (List Nat)) (imageDataSize : Nat)
    (mimeType : String) (p : SetAlbumArtPlatform) (w : World) :
    Sat (SetAlbumArtBody imageData imageDataSize mimeType p) w (fun _ _ => True)
      (fun _ w1 => NothingPublished w w1) True := by
  simp only [SetAlbumArtBody, CreateThumbnail, CreateThumbnailBody, sat_noexceptTry, sat_bind,
    sat_pure, sat_getWorld, sat_call, sat_fetch, sat_ite]
  simp [NothingPublished]

theorem ClearAlbumArtBody_sat_frame (p : ClearAlbumArtPlatform) (w : World) :
    Sat (ClearAlbumArtBody p) w (fun _ _ => True)
      (fun _ w1 => NothingPublished w w1) True := by
  simp only [ClearAlbumArtBody, sat_bind, sat_pure, sat_getWorld, sat_call, sat_fetch, sat_ite]
  simp [NothingPublished]

theorem noexceptTry_of_raised (body : Exec Unit) (w w1 : World) (e : Raised)
    (h : body w = .raised e w1) :
    noexceptTry body (pure ()) w =
      (if e = .stdException then .returned () w1 else .terminated) := by
  cases e <;> simp [noexceptTry, h, pure_eq]

/-- C10 (counterexample).  On an initialized instance, `UpdateMetadata` with title
"New" in which the `Title` setter succeeds and the `Artist` setter raises a
`std::exception`: the call returns, but the session is not as it was before the
call, since the title it had set stays in the session; the next commit, here the
one made by `ClearAlbumArt`, publishes it. -/
theorem C10_counterexample :
    ∃ w1 w2,
      UpdateMetadataBody { title := "New" } { artist := .throwsStd } initializedExample
        = .raised .stdException w1 ∧
      UpdateMetadata { title := "New" } { artist := .throwsStd } initializedExample
        = .returned () w1 ∧
      initializedExample.session.staged.title = "" ∧
      w1.session.staged.title = "New" ∧
      w1.session ≠ initializedExample.session ∧
      ClearAlbumArt {} w1 = .returned () w2 ∧
      w2.session.published.title = "New" := by
  refine ⟨_, _, rfl, rfl, rfl, rfl, by decide, rfl, rfl⟩

/-- C10 (amended).  For every state and every call of `SetPlaybackState`,
`UpdateMetadata`, `SetAlbumArt` or `ClearAlbumArt` whose `try` block is left by
an exception of a platform call: when the exception derives from
`std::exception` the call returns (otherwise the process is terminated), and in
the state it leaves the flag `m_initialized`, the handle, the playback status and
every published display field (title, artist, album, timeline, thumbnail) are as
they were before the call; a failed `SetPlaybackState` leaves the whole session
as it was. -/
theorem C10_failed_call_publishes_nothing (w w1 : World) (c : PublishCall) (e : Raised)
    (hfail : c.body w = .raised e w1) :
    c.run w = (if e = .stdException then .returned () w1 else .terminated) ∧
      w1.m_initialized = w.m_initialized ∧
      w1.m_smtc = w.m_smtc ∧
      w1.session.playbackStatus = w.session.playbackStatus ∧
      w1.session.published = w.session.published ∧
      (∀ state r, c = .setPlaybackState state r → w1.session = w.session) := by
  cases c with
  | setPlaybackState state r =>
    obtain ⟨⟨h1, h2, h3, h4⟩, h5⟩ := (SetPlaybackStateBody_sat_frame state r w).of_raised hfail
    exact ⟨noexceptTry_of_raised _ w w1 e hfail, h1, h2, h4, h3, fun _ _ _ => h5⟩
  | updateMetadata metadata p =>
    obtain ⟨h1, h2, h3, h4⟩ := (UpdateMetadataBody_sat_frame metadata p w).of_raised hfail
    exact ⟨noexceptTry_of_raised _ w w1 e hfail, h1, h2, h4, h3, fun _ _ hc => by cases hc⟩
  | setAlbumArt imageData imageDataSize mimeType p =>
    obtain ⟨h1, h2, h3, h4⟩ :=
      (SetAlbumArtBody_sat_frame imageData imageDataSize mimeType p w).of_raised hfail
    exact ⟨noexceptTry_of_raised _ w w1 e hfail, h1, h2, h4, h3, fun _ _ hc => by cases hc⟩
  | clearAlbumArt p =>
    obtain ⟨h1, h2, h3, h4⟩ := (ClearAlbumArtBody_sat_frame p w).of_raised hfail
    exact ⟨noexceptTry_of_raised _ w w1 e hfail, h1, h2, h4, h3, fun _ _ hc => by cases hc⟩

/-- C10 (witness): `SetAlbumArt` whose `Update()` call raises a `std::exception`
after the thumbnail was set. -/
theorem C10_failed_call_publishes_nothing_witness :
    (PublishCall.setAlbumArt (some [255, 216, 255]) 3 "image/jpeg" { update := .throwsStd }).body
        initializedExample
      = .raised .stdException
          { initializedExample with
            session := { staged := { thumbnail := some ⟨[255, 216, 255]⟩ } },
            calls := [.displayUpdater, .newStream, .newWriter, .writeBytes [255, 216, 255],
              .storeAsync, .getStored, .seek 0, .createFromStream,
              .setThumbnail (some ⟨[255, 216, 255]⟩), .update] } ∧
      SetAlbumArt (some [255, 216, 255]) 3 "image/jpeg" { update := .throwsStd }
          initializedExample
        = .returned ()
          { initializedExample with
            session := { staged := { thumbnail := some ⟨[255, 216, 255]⟩ } },
            calls := [.displayUpdater, .newStream, .newWriter, .writeBytes [255, 216, 255],
              .storeAsync, .getStored, .seek 0, .createFromStream,
              .setThumbnail (some ⟨[255, 216, 255]⟩), .update] } :=
  ⟨by decide,
    (C10_failed_call_publishes_nothing initializedExample _
      (PublishCall.setAlbumArt (some [255, 216, 255]) 3 "image/jpeg" { update := .throwsStd })
      .stdException (by decide)).1⟩


/-! ## Threads -/

theorem SetPlaybackStateCode_runAlone (state : PlaybackState) (r : CallResult) (w : World) :
    (SetPlaybackStateCode state r).runAlone w
      = (SetPlaybackState state r w).map (fun _ => none) := by
  cases hi : w.m_initialized <;> cases hs : w.m_smtc <;> cases r <;>
    simp [SetPlaybackStateCode, callCode, Code.runAlone, PlatformCall.effect, Step.map,
      SetPlaybackState, noexceptTry, SetPlaybackStateBody, getWorld, call, bind_eq, pure_eq,
      hi, hs]

theorem IsInitializedCode_runAlone (w : World) :
    IsInitializedCode.runAlone w = (IsInitialized w).map some := by
  cases hi : w.m_initialized <;>
    simp [IsInitializedCode, Code.runAlone, Step.map, IsInitialized, hi]

theorem ShutdownCode_runAlone (r : CallResult) (w : World) :
    (ShutdownCode r).runAlone w = (Shutdown r w).map (fun _ => none) := by
  cases hs : w.m_smtc <;> cases r <;>
    simp [ShutdownCode, callCode, Code.runAlone, PlatformCall.effect, Step.map,
      Shutdown, noexceptTry, ShutdownBody, getWorld, setSmtc, setInitialized, call, bind_eq,
      pure_eq, hs]

theorem SetPlaybackStateCode_underMutex (state : PlaybackState) (r : CallResult) :
    (SetPlaybackStateCode state r).underMutex false = true := by
  cases r <;> rfl

theorem ShutdownCode_underMutex (r : CallResult) :
    (ShutdownCode r).underMutex false = true := by
  cases r <;> rfl

theorem IsInitializedCode_underMutex : IsInitializedCode.underMutex false = true := rfl

theorem effect_playbackStatus (c : PlatformCall) (s : Session)
    (h : c.isSetPlaybackStatus = false) : (c.effect s).playbackStatus = s.playbackStatus := by
  cases c <;> simp_all [PlatformCall.effect, PlatformCall.isSetPlaybackStatus, commit]

theorem effect_status_in (vals : List MediaPlaybackState) (c : PlatformCall) (s : Session)
    (hc : c.leavesStatusIn vals = true) (h : s.playbackStatus ∈ vals) :
    (c.effect s).playbackStatus ∈ vals := by
  cases c <;> simp_all [PlatformCall.effect, PlatformCall.leavesStatusIn, commit]

theorem disciplined_step (t other : Nat) (hne : t ≠ other) (code otherCode code1 : Code)
    (s s1 : Shared) (hstep : code.step t s = some (code1, s1))
    (hu : s.unguarded = false)
    (hc : code.underMutex (decide (s.owner = some t)) = true)
    (ho : otherCode.underMutex (decide (s.owner = some other)) = true) :
    s1.unguarded = false ∧ code1.underMutex (decide (s1.owner = some t)) = true ∧
      otherCode.underMutex (decide (s1.owner = some other)) = true := by
  cases code with
  | finished r => simp [Code.step] at hstep
  | terminate => simp [Code.step] at hstep
  | lock next =>
    simp only [Code.step] at hstep
    split at hstep
    · rename_i hfree
      simp only [Option.some.injEq, Prod.mk.injEq] at hstep
      obtain ⟨rfl, rfl⟩ := hstep
      simp [Code.underMutex, hfree] at hc ho ⊢
      exact ⟨hu, hc, by simpa [hne] using ho⟩
    · simp at hstep
  | unlock next =>
    simp only [Code.step, Option.some.injEq, Prod.mk.injEq] at hstep
    obtain ⟨rfl, rfl⟩ := hstep
    simp [Code.underMutex] at hc ⊢
    obtain ⟨hown, hnext⟩ := hc
    refine ⟨hu, hnext, ?_⟩
    simpa [hown, hne] using ho
  | readInitialized a b =>
    simp only [Code.step, Option.some.injEq, Prod.mk.injEq] at hstep
    obtain ⟨rfl, rfl⟩ := hstep
    simp [Code.underMutex] at hc
    obtain ⟨⟨hown, ha⟩, hb⟩ := hc
    have ha1 : a.underMutex true = true := by simpa [hown] using ha
    have hb1 : b.underMutex true = true := by simpa [hown] using hb
    refine ⟨by simp [hu, hown], ?_, ho⟩
    split <;> simp [hown, ha1, hb1]
  | readSmtc a b =>
    simp only [Code.step, Option.some.injEq, Prod.mk.injEq] at hstep
    obtain ⟨rfl, rfl⟩ := hstep
    simp [Code.underMutex] at hc
    obtain ⟨⟨hown, ha⟩, hb⟩ := hc
    have ha1 : a.underMutex true = true := by simpa [hown] using ha
    have hb1 : b.underMutex true = true := by simpa [hown] using hb
    refine ⟨by simp [hu, hown], ?_, ho⟩
    split <;> simp [hown, ha1, hb1]
  | writeInitialized v next =>
    simp only [Code.step, Option.some.injEq, Prod.mk.injEq] at hstep
    obtain ⟨rfl, rfl⟩ := hstep
    simp [Code.underMutex] at hc
    obtain ⟨hown, hnext⟩ := hc
    have hn1 : next.underMutex true = true := by simpa [hown] using hnext
    exact ⟨by simp [hu, hown], by simp [hown, hn1], ho⟩
  | writeSmtc h next =>
    simp only [Code.step, Option.some.injEq, Prod.mk.injEq] at hstep
    obtain ⟨rfl, rfl⟩ := hstep
    simp [Code.underMutex] at hc
    obtain ⟨hown, hnext⟩ := hc
    have hn1 : next.underMutex true = true := by simpa [hown] using hnext
    exact ⟨by simp [hu, hown], by simp [hown, hn1], ho⟩
  | platform c succeeds next =>
    simp only [Code.step, Option.some.injEq, Prod.mk.injEq] at hstep
    obtain ⟨rfl, rfl⟩ := hstep
    simp [Code.underMutex] at hc
    exact ⟨hu, hc, ho⟩

theorem Disciplined_step (sys : System) (pick : Bool) (h : sys.Disciplined) :
    (sys.step pick).Disciplined := by
  obtain ⟨hu, h0, h1⟩ := h
  cases pick with
  | true =>
    simp only [System.step, if_true]
    cases hs : sys.first.step 0 sys.shared with
    | none => exact ⟨hu, h0, h1⟩
    | some r =>
      obtain ⟨code1, s1⟩ := r
      exact disciplined_step 0 1 (by decide) _ _ _ _ _ hs hu h0 h1
  | false =>
    simp only [System.step, Bool.false_eq_true, if_false]
    cases hs : sys.second.step 1 sys.shared with
    | none => exact ⟨hu, h0, h1⟩
    | some r =>
      obtain ⟨code1, s1⟩ := r
      obtain ⟨a, b, c⟩ := disciplined_step 1 0 (by decide) _ _ _ _ _ hs hu h1 h0
      exact ⟨a, c, b⟩

theorem Disciplined_run (schedule : List Bool) :
    ∀ sys : System, sys.Disciplined → (sys.run schedule).Disciplined := by
  induction schedule with
  | nil => intro sys h; exact h
  | cons b rest ih =>
    intro sys h
    exact ih (sys.step b) (Disciplined_step sys b h)

theorem effect_sets_status_in (vals : List MediaPlaybackState) (c : PlatformCall) (s : Session)
    (hc : c.leavesStatusIn vals = true) (h : c.isSetPlaybackStatus = true) :
    (c.effect s).playbackStatus ∈ vals := by
  cases c <;> simp_all [PlatformCall.effect, PlatformCall.leavesStatusIn,
    PlatformCall.isSetPlaybackStatus]

theorem publishing_step (vals : List MediaPlaybackState) (t : Nat) (code code1 : Code)
    (s s1 : Shared) (hstep : code.step t s = some (code1, s1))
    (hw : Initialized s.world) (hk : code.keepsMembers = true)
    (hs : code.statusIn vals = true) :
    Initialized s1.world ∧ code1.keepsMembers = true ∧ code1.statusIn vals = true ∧
      (s.world.session.playbackStatus ∈ vals → s1.world.session.playbackStatus ∈ vals) ∧
      (code.willSetStatus = true ∨ s.world.session.playbackStatus ∈ vals →
        code1.willSetStatus = true ∨ s1.world.session.playbackStatus ∈ vals) := by
  obtain ⟨hi, hsm⟩ := hw
  cases code with
  | finished r => simp [Code.step] at hstep
  | terminate => simp [Code.step] at hstep
  | lock next =>
    simp only [Code.step] at hstep
    split at hstep
    · simp only [Option.some.injEq, Prod.mk.injEq] at hstep
      obtain ⟨rfl, rfl⟩ := hstep
      exact ⟨⟨hi, hsm⟩, hk, hs, id, id⟩
    · simp at hstep
  | unlock next =>
    simp only [Code.step, Option.some.injEq, Prod.mk.injEq] at hstep
    obtain ⟨rfl, rfl⟩ := hstep
    exact ⟨⟨hi, hsm⟩, hk, hs, id, id⟩
  | readInitialized a b =>
    simp only [Code.step, Option.some.injEq, Prod.mk.injEq, hi, if_true] at hstep
    obtain ⟨rfl, rfl⟩ := hstep
    simp only [Code.keepsMembers, Code.statusIn, Bool.and_eq_true] at hk hs
    exact ⟨⟨hi, hsm⟩, hk.1, hs.1, id, id⟩
  | readSmtc a b =>
    simp only [Code.step, Option.some.injEq, Prod.mk.injEq, hsm, if_true] at hstep
    obtain ⟨rfl, rfl⟩ := hstep
    simp only [Code.keepsMembers, Code.statusIn, Bool.and_eq_true] at hk hs
    exact ⟨⟨hi, hsm⟩, hk.1, hs.1, id, id⟩
  | writeInitialized v next => simp [Code.keepsMembers] at hk
  | writeSmtc h next => simp [Code.keepsMembers] at hk
  | platform c succeeds next =>
    simp only [Code.step, Option.some.injEq, Prod.mk.injEq] at hstep
    obtain ⟨rfl, rfl⟩ := hstep
    simp only [Code.statusIn, Bool.and_eq_true] at hs
    have hkeep : s.world.session.playbackStatus ∈ vals →
        (if succeeds = true then c.effect s.world.session else s.world.session).playbackStatus
          ∈ vals := by
      intro h
      split
      · exact effect_status_in vals c _ hs.1 h
      · exact h
    refine ⟨⟨hi, hsm⟩, hk, hs.2, hkeep, ?_⟩
    rintro (h | h)
    · simp only [Code.willSetStatus, Bool.or_eq_true, Bool.and_eq_true] at h
      rcases h with ⟨hsucc, hset⟩ | h
      · right
        simp only [hsucc, if_true]
        exact effect_sets_status_in vals c _ hs.1 hset
      · exact Or.inl h
    · exact Or.inr (hkeep h)

theorem Publishing_step (vals : List MediaPlaybackState) (sys : System) (pick : Bool)
    (h : sys.Publishing vals) : (sys.step pick).Publishing vals := by
  obtain ⟨hw, hk0, hs0, hk1, hs1, hp0, hp1⟩ := h
  cases pick with
  | true =>
    simp only [System.step, if_true]
    cases hs : sys.first.step 0 sys.shared with
    | none => exact ⟨hw, hk0, hs0, hk1, hs1, hp0, hp1⟩
    | some r =>
      obtain ⟨code1, s1⟩ := r
      obtain ⟨a, b, c, d, e⟩ := publishing_step vals 0 _ _ _ _ hs hw hk0 hs0
      exact ⟨a, b, c, hk1, hs1, e hp0, hp1.imp id d⟩
  | false =>
    simp only [System.step, Bool.false_eq_true, if_false]
    cases hs : sys.second.step 1 sys.shared with
    | none => exact ⟨hw, hk0, hs0, hk1, hs1, hp0, hp1⟩
    | some r =>
      obtain ⟨code1, s1⟩ := r
      obtain ⟨a, b, c, d, e⟩ := publishing_step vals 1 _ _ _ _ hs hw hk1 hs1
      exact ⟨a, hk0, hs0, b, c, hp0.imp id d, e hp1⟩

theorem Publishing_run (vals : List MediaPlaybackState) (schedule : List Bool) :
    ∀ sys : System, sys.Publishing vals → (sys.run schedule).Publishing vals := by
  induction schedule with
  | nil => intro sys h; exact h
  | cons b rest ih =>
    intro sys h
    exact ih (sys.step b) (Publishing_step vals sys b h)

/-- The interleavings of `SetPlaybackState(Playing)` and `SetPlaybackState(Paused)`
on an initialized object, both platform calls succeeding.  Under every schedule no
member is read or written without the mutex, and as soon as one of the two calls
has returned the playback status of the session is `Playing` or `Paused`; the
schedule that runs the first call and then the second ends with `Paused`, the
opposite one with `Playing`. -/
theorem SetPlaybackState_interleavings (w : World) (hw : Initialized w)
    (schedule : List Bool) :
    (((System.start w (SetPlaybackStateCode PlaybackState.Playing .ok)
          (SetPlaybackStateCode PlaybackState.Paused .ok)).run schedule).shared.unguarded
        = false) ∧
      ((((System.start w (SetPlaybackStateCode PlaybackState.Playing .ok)
            (SetPlaybackStateCode PlaybackState.Paused .ok)).run schedule).first.isFinished
          = true ∨
        ((System.start w (SetPlaybackStateCode PlaybackState.Playing .ok)
            (SetPlaybackStateCode PlaybackState.Paused .ok)).run schedule).second.isFinished
          = true) →
        ((System.start w (SetPlaybackStateCode PlaybackState.Playing .ok)
            (SetPlaybackStateCode PlaybackState.Paused .ok)).run
              schedule).shared.world.session.playbackStatus
          ∈ [MediaPlaybackState.Playing, MediaPlaybackState.Paused]) ∧
      ((System.start w (SetPlaybackStateCode PlaybackState.Playing .ok)
          (SetPlaybackStateCode PlaybackState.Paused .ok)).run
            [true, true, true, true, true, false, false, false, false, false]
        = { shared := { world := { w with
                calls := w.calls ++ [.setPlaybackStatus .Playing, .setPlaybackStatus .Paused],
                session := { w.session with playbackStatus := .Paused } } },
            first := .finished none, second := .finished none }) ∧
      ((System.start w (SetPlaybackStateCode PlaybackState.Playing .ok)
          (SetPlaybackStateCode PlaybackState.Paused .ok)).run
            [false, false, false, false, false, true, true, true, true, true]
        = { shared := { world := { w with
                calls := w.calls ++ [.setPlaybackStatus .Paused, .setPlaybackStatus .Playing],
                session := { w.session with playbackStatus := .Playing } } },
            first := .finished none, second := .finished none }) := by
  have hD := Disciplined_run schedule
    (System.start w (SetPlaybackStateCode PlaybackState.Playing .ok)
      (SetPlaybackStateCode PlaybackState.Paused .ok)) ⟨rfl, rfl, rfl⟩
  have hP := Publishing_run [MediaPlaybackState.Playing, MediaPlaybackState.Paused] schedule
    (System.start w (SetPlaybackStateCode PlaybackState.Playing .ok)
      (SetPlaybackStateCode PlaybackState.Paused .ok))
    ⟨hw, rfl, rfl, rfl, rfl, Or.inl rfl, Or.inl rfl⟩
  obtain ⟨h1, h2⟩ := hw
  obtain ⟨hd, h3⟩ := Option.isSome_iff_exists.mp h2
  refine ⟨hD.1, ?_, ?_, ?_⟩
  · obtain ⟨_, _, _, _, _, hp0, hp1⟩ := hP
    rintro (hf | hf)
    · rcases hp0 with hp | hp
      · cases hc : (System.run (System.start w (SetPlaybackStateCode PlaybackState.Playing .ok)
            (SetPlaybackStateCode PlaybackState.Paused .ok)) schedule).first <;>
          simp [hc, Code.isFinished, Code.willSetStatus] at hf hp
      · exact hp
    · rcases hp1 with hp | hp
      · cases hc : (System.run (System.start w (SetPlaybackStateCode PlaybackState.Playing .ok)
            (SetPlaybackStateCode PlaybackState.Paused .ok)) schedule).second <;>
          simp [hc, Code.isFinished, Code.willSetStatus] at hf hp
      · exact hp
  · simp [System.run, System.start, System.step, Code.step, SetPlaybackStateCode, callCode,
      PlatformCall.effect, ToWinRTState, PlaybackState.Playing, PlaybackState.Paused,
      PlaybackState.Stopped, PlaybackState.Opening, PlaybackState.Closed, h1, h3]
  · simp [System.run, System.start, System.step, Code.step, SetPlaybackStateCode, callCode,
      PlatformCall.effect, ToWinRTState, PlaybackState.Playing, PlaybackState.Paused,
      PlaybackState.Stopped, PlaybackState.Opening, PlaybackState.Closed, h1, h3]

/-- The steps of `Initialize`, run by one thread alone, give what `Initialize`
gives. -/
theorem InitializeCode_runAlone (p : InitializePlatform) (w : World) :
    (InitializeCode p).runAlone w = (Initialize p w).map some := by
  rcases p with ⟨g, d, t, e1, e2, e3, e4, e5, e6⟩
  cases hi : w.m_initialized
  · cases g <;> try (simp [InitializeCode, InitializeHandlerCode, fetchCode, callCode,
      Code.runAlone, PlatformCall.effect, Step.map, Initialize, noexceptTry, InitializeBody,
      InitializeHandler, getWorld, setSmtc, setInitialized, call, fetch, bind_eq, pure_eq, hi]; done)
    cases d <;> try (simp [InitializeCode, InitializeHandlerCode, fetchCode, callCode,
      Code.runAlone, PlatformCall.effect, Step.map, Initialize, noexceptTry, InitializeBody,
      InitializeHandler, getWorld, setSmtc, setInitialized, call, fetch, bind_eq, pure_eq, hi]; done)
    cases t <;> try (simp [InitializeCode, InitializeHandlerCode, fetchCode, callCode,
      Code.runAlone, PlatformCall.effect, Step.map, Initialize, noexceptTry, InitializeBody,
      InitializeHandler, getWorld, setSmtc, setInitialized, call, fetch, bind_eq, pure_eq, hi]; done)
    cases e1 <;> try (simp [InitializeCode, InitializeHandlerCode, fetchCode, callCode,
      Code.runAlone, PlatformCall.effect, Step.map, Initialize, noexceptTry, InitializeBody,
      InitializeHandler, getWorld, setSmtc, setInitialized, call, fetch, bind_eq, pure_eq, hi]; done)
    cases e2 <;> try (simp [InitializeCode, InitializeHandlerCode, fetchCode, callCode,
      Code.runAlone, PlatformCall.effect, Step.map, Initialize, noexceptTry, InitializeBody,
      InitializeHandler, getWorld, setSmtc, setInitialized, call, fetch, bind_eq, pure_eq, hi]; done)
    cases e3 <;> try (simp [InitializeCode, InitializeHandlerCode, fetchCode, callCode,
      Code.runAlone, PlatformCall.effect, Step.map, Initialize, noexceptTry, InitializeBody,
      InitializeHandler, getWorld, setSmtc, setInitialized, call, fetch, bind_eq, pure_eq, hi]; done)
    cases e4 <;> try (simp [InitializeCode, InitializeHandlerCode, fetchCode, callCode,
      Code.runAlone, PlatformCall.effect, Step.map, Initialize, noexceptTry, InitializeBody,
      InitializeHandler, getWorld, setSmtc, setInitialized, call, fetch, bind_eq, pure_eq, hi]; done)
    cases e5 <;> try (simp [InitializeCode, InitializeHandlerCode, fetchCode, callCode,
      Code.runAlone, PlatformCall.effect, Step.map, Initialize, noexceptTry, InitializeBody,
      InitializeHandler, getWorld, setSmtc, setInitialized, call, fetch, bind_eq, pure_eq, hi]; done)
    cases e6 <;> simp [InitializeCode, InitializeHandlerCode, fetchCode, callCode,
      Code.runAlone, PlatformCall.effect, Step.map, Initialize, noexceptTry, InitializeBody,
      InitializeHandler, getWorld, setSmtc, setInitialized, call, fetch, bind_eq, pure_eq, hi]
  · simp [InitializeCode, Code.runAlone, Step.map, Initialize, noexceptTry, InitializeBody,
      getWorld, bind_eq, pure_eq, hi]

/-- C11 (code defect).  The handler of `Initialize` writes `m_initialized`
without the mutex.  When a platform call of `Initialize` raises a
`std::exception`, the `lock_guard` declared inside the `try` block is destroyed
before the handler runs, so the steps of that call do not keep the lock
discipline, whereas those of `SetPlaybackState`, `Shutdown` and `IsInitialized`
do.  In an interleaving of two threads that both call `Initialize` on a fresh
object, the first meeting a `std::exception` in `IsEnabled(true)`, the second
running between the release of the mutex by the first and its handler: a member
is written by a thread that does not hold the mutex, the second call returns
`true`, no `Shutdown` is called, and the flag ends clear with the handle set. -/
theorem C11_initialize_handler_writes_without_mutex :
    (InitializeCode { getForCurrentView := .object ⟨1⟩, isEnabled := .throwsStd }).underMutex
        false = false ∧
      (InitializeCode { getForCurrentView := .object ⟨1⟩ }).underMutex false = true ∧
      (SetPlaybackStateCode PlaybackState.Playing .ok).underMutex false = true ∧
      (SetPlaybackStateCode PlaybackState.Paused .ok).underMutex false = true ∧
      IsInitializedCode.underMutex false = true ∧
      ((System.start (freshInstance {} (.object ⟨1⟩))
          (InitializeCode { getForCurrentView := .object ⟨1⟩, isEnabled := .throwsStd })
          (InitializeCode { getForCurrentView := .object ⟨1⟩ })).run
            (List.replicate 9 true ++ List.replicate 15 false ++ [true])).first
        = .finished (some false) ∧
      ((System.start (freshInstance {} (.object ⟨1⟩))
          (InitializeCode { getForCurrentView := .object ⟨1⟩, isEnabled := .throwsStd })
          (InitializeCode { getForCurrentView := .object ⟨1⟩ })).run
            (List.replicate 9 true ++ List.replicate 15 false ++ [true])).second
        = .finished (some true) ∧
      ((System.start (freshInstance {} (.object ⟨1⟩))
          (InitializeCode { getForCurrentView := .object ⟨1⟩, isEnabled := .throwsStd })
          (InitializeCode { getForCurrentView := .object ⟨1⟩ })).run
            (List.replicate 9 true ++ List.replicate 15 false ++ [true])).shared.unguarded
        = true ∧
      ((System.start (freshInstance {} (.object ⟨1⟩))
          (InitializeCode { getForCurrentView := .object ⟨1⟩, isEnabled := .throwsStd })
          (InitializeCode { getForCurrentView := .object ⟨1⟩ })).run
            (List.replicate 9 true ++ List.replicate 15 false ++ [true])).shared.world.m_initialized
        = false ∧
      ((System.start (freshInstance {} (.object ⟨1⟩))
          (InitializeCode { getForCurrentView := .object ⟨1⟩, isEnabled := .throwsStd })
          (InitializeCode { getForCurrentView := .object ⟨1⟩ })).run
            (List.replicate 9 true ++ List.replicate 15 false ++ [true])).shared.world.m_smtc
        = some ⟨1⟩ := by
  refine ⟨rfl, rfl, rfl, rfl, rfl, rfl, rfl, rfl, rfl, rfl⟩

end ShairportQt
